import Mathlib

/-!
Verification of `tempest/clients.py` (the OpenStack Tempest client composition
root) against its natural-language specification.

The Python module is shallowly embedded below:

* Python dicts with string keys are association lists (`AList`); dict values in
  service-parameter dicts are `PVal` (string / int / bool / `None`), with the
  Python truthiness test made explicit.
* Dict identity and in-place mutation matter for the frame claims about
  `copy.copy` / `copy.deepcopy`, so parameter dicts live in an explicit heap
  (`Heap`); `Manager.parameters` maps service names to heap cells, `d[k] = v`
  is a heap write, and the two `copy` functions allocate fresh cells.
* Each constructed service client is recorded as a `Client` value carrying the
  authentication argument it was given (the Manager's shared auth provider, or
  for the identity token clients a raw auth URL), the `**params` mapping it
  received, and its extra keyword arguments.
* A raised Python exception is a pending `Err` in the construction state;
  once set, the remaining construction statements are skipped, while the
  attributes assigned before the raise stay assigned, as in Python.
* The configuration store `CONF` and `config.service_client_config` are an
  explicit `Config` record; `CONF.identity.uri` / `uri_v3` are `Option String`
  with `none` standing for an unset (falsy) URI.
* `service_clients.tempest_modules()` and `service_clients.ServiceClients`
  are repository code that is not part of the sources under study; the module
  list is kept as an explicit parameter, and `ServiceClients.__init__` is
  modelled from the spec (see `ServiceClients.init`).
-/

set_option maxHeartbeats 1000000

namespace TempestClients

/-- A Python value stored in a service-parameter dict: string, integer,
boolean or `None`. -/
inductive PVal where
  | str (s : String)
  | int (i : Int)
  | bool (b : Bool)
  | noneV
  deriving DecidableEq, Repr

/-- Python truthiness of a parameter value (`if _value:`): the empty string,
zero, `False` and `None` are falsy. -/
def PVal.truthy : PVal → Bool
  | .str s => !s.data.isEmpty
  | .int i => i != 0
  | .bool b => b
  | .noneV => false

/-- A Python dict with string keys, as an association list; lookups return the
first binding. -/
abbrev AList (α : Type) := List (String × α)

/-- Dict lookup `d.get(k)` / `d[k]`. -/
def alistGet {α : Type} : AList α → String → Option α
  | [], _ => none
  | (k', v) :: rest, k => if k = k' then some v else alistGet rest k

/-- Dict assignment `d[k] = v`: update the binding of `k` in place if present,
otherwise append a new binding. -/
def alistSet {α : Type} : AList α → String → α → AList α
  | [], k, v => [(k, v)]
  | (k', v') :: rest, k, v =>
      if k = k' then (k, v) :: rest else (k', v') :: alistSet rest k v

/-- The contents of one service-parameter dict. -/
abbrev Params := AList PVal

/-- Python `base.update(upd)`: apply every binding of `upd` to `base`. -/
def dictUpdate (base upd : Params) : Params :=
  upd.foldl (fun d kv => alistSet d kv.1 kv.2) base

/-- The credentials object handed to `Manager` / `get_auth_provider`: an
instance of `auth.KeystoneV3Credentials`, an instance of the Keystone v2
credentials class, or an object of some unrelated type.  A Python `None`
argument is `Option.none` at use sites. -/
inductive Credentials where
  | keystoneV2
  | keystoneV3
  | other
  deriving DecidableEq, Repr

/-- The two auth-provider classes selected by `get_auth_provider_class`. -/
inductive AuthProviderClass where
  | keystoneV2AuthProvider
  | keystoneV3AuthProvider
  deriving DecidableEq, Repr

/-- The exceptions this module can raise during Manager construction. -/
inductive Err where
  | invalidCredentials (msg : String)
  | invalidConfiguration (msg : String)
  | keyError (key : String)
  deriving DecidableEq, Repr

/-- The slice of the global `CONF` that `tempest/clients.py` reads, together
with the external configuration oracle `config.service_client_config`
(field `svcConfig`; `none` models that call raising `UnknownServiceClient`)
and its zero-argument form (field `default_params`). -/
structure Config where
  uri : Option String
  uri_v3 : Option String
  api_v2 : Bool
  api_v3 : Bool
  glance : Bool
  region : String
  v2_admin_endpoint_type : String
  v2_public_endpoint_type : String
  v3_endpoint_type : String
  enable_instance_password : Bool
  volume_size : Int
  compute_build_interval : Int
  compute_build_timeout : Int
  baremetal_catalog_type : String
  baremetal_endpoint_type : String
  orchestration_catalog_type : String
  orchestration_region : String
  orchestration_endpoint_type : String
  orchestration_build_interval : Int
  orchestration_build_timeout : Int
  data_processing_catalog_type : String
  data_processing_endpoint_type : String
  default_params : Params
  svcConfig : String → Option Params

/-- `get_auth_provider_class(credentials)` (clients.py:396-400):
`isinstance(credentials, auth.KeystoneV3Credentials)` selects the v3 provider
class and `CONF.identity.uri_v3`; any other argument (including `None`) falls
through to the v2 provider class and `CONF.identity.uri`. -/
def get_auth_provider_class (cfg : Config) (credentials : Option Credentials) :
    AuthProviderClass × Option String :=
  if credentials = some .keystoneV3 then
    (.keystoneV3AuthProvider, cfg.uri_v3)
  else
    (.keystoneV2AuthProvider, cfg.uri)

/-- An auth-provider instance as produced by `get_auth_provider`: the selected
class, the construction arguments, and whether `set_auth()` has been invoked
on it. -/
structure AuthProvider where
  cls : AuthProviderClass
  credentials : Credentials
  authUrl : Option String
  scope : String
  params : Params
  authCalled : Bool
  deriving DecidableEq, Repr

/-- `provider.set_auth()` (external collaborator): the embedding tracks only
that the call happened. -/
def AuthProvider.set_auth (p : AuthProvider) : AuthProvider :=
  { p with authCalled := true }

/-- `get_auth_provider(credentials, pre_auth=False, scope='project')`
(clients.py:403-416). -/
def get_auth_provider (cfg : Config) (credentials : Option Credentials)
    (pre_auth : Bool) (scope : String) : Except Err AuthProvider :=
  let default_params := cfg.default_params
  match credentials with
  | none => .error (.invalidCredentials "Credentials must be specified")
  | some c =>
      let clsUrl := get_auth_provider_class cfg (some c)
      let p : AuthProvider :=
        { cls := clsUrl.1, credentials := c, authUrl := clsUrl.2,
          scope := scope, params := default_params, authCalled := false }
      .ok (if pre_auth then p.set_auth else p)

/-- `service.split('.')[0]`: the unversioned service name of a tempest module
name, i.e. the prefix up to (excluding) the first dot. -/
def unversioned (service : String) : String :=
  String.mk (service.data.takeWhile (fun ch => ch ≠ '.'))

/-- One iteration of the loop in `Manager._prepare_configuration`
(clients.py:115-125).  The accumulator carries the `configuration` dict plus a
ghost log of the names passed to `config.service_client_config`, one entry per
call whether it succeeds or raises.  `cfg.svcConfig _ = none` models the call
raising `UnknownServiceClient`, which the loop catches (logging a warning) so
that nothing is stored for that name. -/
def prepareConfigStep (cfg : Config) (acc : AList Params × List String)
    (service : String) : AList Params × List String :=
  let service_for_config := unversioned service
  if (alistGet acc.1 service_for_config).isSome then acc
  else
    match cfg.svcConfig service_for_config with
    | some p => (alistSet acc.1 service_for_config p, acc.2 ++ [service_for_config])
    | none => (acc.1, acc.2 ++ [service_for_config])

/-- `Manager._prepare_configuration` (clients.py:99-127), instrumented with the
ghost fetch log (second component); the Python method returns only the first
component.  `modules` stands for `service_clients.tempest_modules()`, which is
repository code outside the sources under study, kept as a parameter. -/
def _prepare_configuration (cfg : Config) (modules : List String) :
    AList Params × List String :=
  modules.foldl (prepareConfigStep cfg) ([], [])

/-- How a service client was given its authentication context: the Manager's
shared auth provider (identified by instance id), or — for the two identity
token clients only — a raw auth URL. -/
inductive ClientAuth where
  | provider (ref : Nat)
  | url (u : Option String)
  deriving DecidableEq, Repr

/-- One constructed service client: the class it was built from, the
authentication argument, the `**params` mapping it received (expanded at call
time), and any further keyword/positional arguments. -/
structure Client where
  auth : ClientAuth
  cls : String
  params : Params
  extra : Params
  deriving DecidableEq, Repr

/-- A heap of parameter dicts, so that Python dict aliasing and in-place
mutation versus `copy.copy` / `copy.deepcopy` are modelled faithfully. -/
abbrev Heap := List Params

/-- Read the dict in heap cell `r`. -/
def heapRead : Heap → Nat → Params
  | [], _ => []
  | p :: _, 0 => p
  | _ :: h, r + 1 => heapRead h r

/-- Overwrite heap cell `r` (no-op when out of range). -/
def heapWrite : Heap → Nat → Params → Heap
  | [], _, _ => []
  | _ :: h, 0, p => p :: h
  | q :: h, r + 1, p => q :: heapWrite h r p

/-- Allocate a fresh dict cell; returns the extended heap and the new ref. -/
def heapAlloc (h : Heap) (p : Params) : Heap × Nat := (h ++ [p], h.length)

/-- Python `d[k] = v` on the dict in heap cell `r`. -/
def dictAssign (h : Heap) (r : Nat) (k : String) (v : PVal) : Heap :=
  heapWrite h r (alistSet (heapRead h r) k v)

/-- The observable construction state of a `Manager`: the dict heap, the map
from service name to the heap cell of its parameter dict (`self.parameters`),
the shared auth provider's instance id (`self.auth_provider`), the client
attributes assigned so far, and the pending exception (`some e` once a
statement has raised; later construction steps are then skipped, while the
attributes already assigned stay assigned, as in Python). -/
structure MState where
  heap : Heap
  parameters : AList Nat
  authProvider : Nat
  clients : AList Client
  err : Option Err
  deriving DecidableEq, Repr

/-- Attribute assignment `self.<name> = <client>`. -/
def setClient (s : MState) (name : String) (c : Client) : MState :=
  { s with clients := alistSet s.clients name c }

/-- `self.<name> = <Class>(self.auth_provider, **params, <extra>)`. -/
def addC (s : MState) (name cls : String) (params extra : Params) : MState :=
  setClient s name
    { auth := .provider s.authProvider, cls := cls, params := params, extra := extra }

/-- A run of uniform constructions
`self.<name> = <Class>(self.auth_provider, **params)`, one per `(name, Class)`
pair, in order. -/
def addClients (s : MState) (params : Params) (specs : List (String × String)) :
    MState :=
  specs.foldl (fun s sp => addC s sp.1 sp.2 params []) s

/-- Store the resolved per-service parameter dicts into fresh heap cells,
returning the final heap and the name-to-cell map. -/
def allocParamsAux (h : Heap) : AList Params → Heap × AList Nat
  | [] => (h, [])
  | (k, p) :: rest =>
      let res := allocParamsAux (h ++ [p]) rest
      (res.1, (k, h.length) :: res.2)

/-- Modelled from the spec: `service_clients.ServiceClients.__init__` is
repository code that is not under the sources being verified.  Per the spec
(§4.2, §7), it fails fast with an InvalidCredentials-class error when
credentials are null/absent, before any client is constructed; otherwise it
stores the resolved per-service parameters (`self.parameters`) and constructs
the one auth provider instance shared by every client of this Manager
(`self.auth_provider`). -/
def ServiceClients.init (credentials : Option Credentials)
    (client_parameters : AList Params) : MState :=
  match credentials with
  | none =>
      { heap := [], parameters := [], authProvider := 0, clients := [],
        err := some (.invalidCredentials "Credentials must be specified") }
  | some _ =>
      let hm := allocParamsAux [] client_parameters
      { heap := hm.1, parameters := hm.2, authProvider := 0, clients := [],
        err := none }

/-- The uniform compute constructions of `Manager._set_compute_clients`
preceding `servers_client` (clients.py:182-191), in source order. -/
def computeSpecs1 : List (String × String) :=
  [("agents_client", "compute.AgentsClient"),
   ("compute_networks_client", "compute.NetworksClient"),
   ("migrations_client", "compute.MigrationsClient"),
   ("security_group_default_rules_client", "compute.SecurityGroupDefaultRulesClient"),
   ("certificates_client", "compute.CertificatesClient")]

/-- The uniform compute constructions following `servers_client`
(clients.py:197-241), in source order. -/
def computeSpecs2 : List (String × String) :=
  [("server_groups_client", "compute.ServerGroupsClient"),
   ("limits_client", "compute.LimitsClient"),
   ("compute_images_client", "compute.ImagesClient"),
   ("keypairs_client", "compute.KeyPairsClient"),
   ("quotas_client", "compute.QuotasClient"),
   ("quota_classes_client", "compute.QuotaClassesClient"),
   ("flavors_client", "compute.FlavorsClient"),
   ("extensions_client", "compute.ExtensionsClient"),
   ("floating_ip_pools_client", "compute.FloatingIPPoolsClient"),
   ("floating_ips_bulk_client", "compute.FloatingIPsBulkClient"),
   ("compute_floating_ips_client", "compute.FloatingIPsClient"),
   ("compute_security_group_rules_client", "compute.SecurityGroupRulesClient"),
   ("compute_security_groups_client", "compute.SecurityGroupsClient"),
   ("interfaces_client", "compute.InterfacesClient"),
   ("fixed_ips_client", "compute.FixedIPsClient"),
   ("availability_zone_client", "compute.AvailabilityZoneClient"),
   ("aggregates_client", "compute.AggregatesClient"),
   ("services_client", "compute.ServicesClient"),
   ("tenant_usages_client", "compute.TenantUsagesClient"),
   ("hosts_client", "compute.HostsClient"),
   ("hypervisor_client", "compute.HypervisorClient"),
   ("instance_usages_audit_log_client", "compute.InstanceUsagesAuditLogClient"),
   ("tenant_networks_client", "compute.TenantNetworksClient"),
   ("baremetal_nodes_client", "compute.BaremetalNodesClient")]

/-- The three volume-proxy compute clients built from `params_volume`
(clients.py:251-256), in source order. -/
def computeProxySpecs : List (String × String) :=
  [("volumes_extensions_client", "compute.VolumesClient"),
   ("compute_versions_client", "compute.VersionsClient"),
   ("snapshots_extensions_client", "compute.SnapshotsClient")]

/-- The identity clients built from `params_v2_admin` (clients.py:264-275). -/
def identityV2AdminSpecs : List (String × String) :=
  [("endpoints_client", "identity.v2.EndpointsClient"),
   ("identity_client", "identity.v2.IdentityClient"),
   ("tenants_client", "identity.v2.TenantsClient"),
   ("roles_client", "identity.v2.RolesClient"),
   ("users_client", "identity.v2.UsersClient"),
   ("identity_services_client", "identity.v2.ServicesClient")]

/-- The identity clients built from `params_v2_public` (clients.py:281-286). -/
def identityV2PublicSpecs : List (String × String) :=
  [("identity_public_client", "identity.v2.IdentityClient"),
   ("tenants_public_client", "identity.v2.TenantsClient"),
   ("users_public_client", "identity.v2.UsersClient")]

/-- The identity clients built from `params_v3` (clients.py:292-315). -/
def identityV3Specs : List (String × String) :=
  [("domains_client", "identity.v3.DomainsClient"),
   ("identity_v3_client", "identity.v3.IdentityClient"),
   ("trusts_client", "identity.v3.TrustsClient"),
   ("users_v3_client", "identity.v3.UsersClient"),
   ("endpoints_v3_client", "identity.v3.EndPointsClient"),
   ("roles_v3_client", "identity.v3.RolesClient"),
   ("identity_services_v3_client", "identity.v3.ServicesClient"),
   ("policies_client", "identity.v3.PoliciesClient"),
   ("projects_client", "identity.v3.ProjectsClient"),
   ("regions_client", "identity.v3.RegionsClient"),
   ("credentials_client", "identity.v3.CredentialsClient"),
   ("groups_client", "identity.v3.GroupsClient")]

/-- The uniform volume constructions preceding `volumes_client`
(clients.py:339-354), in source order. -/
def volumeSpecs1 : List (String × String) :=
  [("volume_qos_client", "volume.v1.QosSpecsClient"),
   ("volume_qos_v2_client", "volume.v2.QosSpecsClient"),
   ("volume_services_client", "volume.v1.ServicesClient"),
   ("volume_services_v2_client", "volume.v2.ServicesClient"),
   ("backups_client", "volume.v1.BackupsClient"),
   ("backups_v2_client", "volume.v2.BackupsClient"),
   ("snapshots_client", "volume.v1.SnapshotsClient"),
   ("snapshots_v2_client", "volume.v2.SnapshotsClient")]

/-- The uniform volume constructions following `volumes_v2_client`
(clients.py:361-382), in source order. -/
def volumeSpecs2 : List (String × String) :=
  [("volume_messages_client", "volume.v3.MessagesClient"),
   ("volume_types_client", "volume.v1.TypesClient"),
   ("volume_types_v2_client", "volume.v2.TypesClient"),
   ("volume_hosts_client", "volume.v1.HostsClient"),
   ("volume_hosts_v2_client", "volume.v2.HostsClient"),
   ("volume_quotas_client", "volume.v1.QuotasClient"),
   ("volume_quotas_v2_client", "volume.v2.QuotasClient"),
   ("volumes_extension_client", "volume.v1.ExtensionsClient"),
   ("volumes_v2_extension_client", "volume.v2.ExtensionsClient"),
   ("volume_availability_zone_client", "volume.v1.AvailabilityZoneClient"),
   ("volume_v2_availability_zone_client", "volume.v2.AvailabilityZoneClient")]

/-- The object-storage clients (clients.py:388-393), in source order. -/
def objectStorageSpecs : List (String × String) :=
  [("account_client", "object_storage.AccountClient"),
   ("container_client", "object_storage.ContainerClient"),
   ("object_client", "object_storage.ObjectClient")]

/-- The image clients (clients.py:163-177), in source order. -/
def imageSpecs : List (String × String) :=
  [("image_client", "image.v1.ImagesClient"),
   ("image_member_client", "image.v1.ImageMembersClient"),
   ("image_client_v2", "image.v2.ImagesClient"),
   ("image_member_client_v2", "image.v2.ImageMembersClient"),
   ("namespaces_client", "image.v2.NamespacesClient"),
   ("resource_types_client", "image.v2.ResourceTypesClient"),
   ("schemas_client", "image.v2.SchemasClient")]

/-- The network clients (clients.py:131-158), in source order. -/
def networkSpecs : List (String × String) :=
  [("network_agents_client", "network.AgentsClient"),
   ("network_extensions_client", "network.ExtensionsClient"),
   ("networks_client", "network.NetworksClient"),
   ("subnetpools_client", "network.SubnetpoolsClient"),
   ("subnets_client", "network.SubnetsClient"),
   ("ports_client", "network.PortsClient"),
   ("network_quotas_client", "network.QuotasClient"),
   ("floating_ips_client", "network.FloatingIPsClient"),
   ("metering_labels_client", "network.MeteringLabelsClient"),
   ("metering_label_rules_client", "network.MeteringLabelRulesClient"),
   ("routers_client", "network.RoutersClient"),
   ("security_group_rules_client", "network.SecurityGroupRulesClient"),
   ("security_groups_client", "network.SecurityGroupsClient"),
   ("network_versions_client", "network.NetworkVersionsClient")]

/-- `Manager._set_network_clients` (clients.py:129-158). -/
def _set_network_clients (s : MState) : MState :=
  if s.err.isSome then s else
  match alistGet s.parameters "network" with
  | none => { s with err := some (.keyError "network") }
  | some r =>
      let params := heapRead s.heap r
      addClients s params networkSpecs

/-- `Manager._set_image_clients` (clients.py:160-177): everything is guarded
by `CONF.service_available.glance`. -/
def _set_image_clients (cfg : Config) (s : MState) : MState :=
  if s.err.isSome then s else
  if cfg.glance then
    match alistGet s.parameters "image" with
    | none => { s with err := some (.keyError "image") }
    | some r =>
        let params := heapRead s.heap r
        addClients s params imageSpecs
  else s

/-- One iteration of the override loop in `Manager._set_compute_clients`
(clients.py:247-250): `_value = self.parameters['volume'].get(_key)` (the dict
in cell `rv`), and `if _value: params_volume[_key] = _value` (a write to the
deep-copied dict in cell `rVol`). -/
def volumeOverrideStep (rVol rv : Nat) (h : Heap) (k : String) : Heap :=
  match alistGet (heapRead h rv) k with
  | some v => if v.truthy then dictAssign h rVol k v else h
  | none => h

/-- The volume-proxy tail of `Manager._set_compute_clients`
(clients.py:243-256): `params_volume = copy.deepcopy(params)` (a fresh heap
cell), the override loop (which reads `self.parameters['volume']`, raising
KeyError if absent), and the three proxy clients built from
`**params_volume`. -/
def computeProxyPart (s : MState) (params : Params) : MState :=
  let hv := heapAlloc s.heap params
  let rVol := hv.2
  let s := { s with heap := hv.1 }
  match alistGet s.parameters "volume" with
  | none => { s with err := some (.keyError "volume") }
  | some rv =>
      let h := ["build_interval", "build_timeout"].foldl
        (volumeOverrideStep rVol rv) s.heap
      let s := { s with heap := h }
      let params_volume := heapRead s.heap rVol
      addClients s params_volume computeProxySpecs

/-- `Manager._set_compute_clients` (clients.py:179-256).  The three
volume-proxy clients are built from `params_volume = copy.deepcopy(params)`,
on which `build_interval` / `build_timeout` from the volume parameter dict
override the compute values exactly when present and truthy
(`computeProxyPart`); every other client is built from `params` itself. -/
def _set_compute_clients (cfg : Config) (s : MState) : MState :=
  if s.err.isSome then s else
  match alistGet s.parameters "compute" with
  | none => { s with err := some (.keyError "compute") }
  | some rc =>
      let params := heapRead s.heap rc
      let s := addClients s params computeSpecs1
      let s := addC s "servers_client" "compute.ServersClient" params
        [("enable_instance_password", .bool cfg.enable_instance_password)]
      let s := addClients s params computeSpecs2
      computeProxyPart s params

/-- The v3 token-client step of `Manager._set_identity_clients`
(clients.py:327-333): if the identity v3 API is enabled, either construct
`token_v3_client` from `CONF.identity.uri_v3` or raise InvalidConfiguration
when that URI is unset. -/
def setTokenV3Client (cfg : Config) (s : MState) : MState :=
  if cfg.api_v3 then
    match cfg.uri_v3 with
    | some u =>
        setClient s "token_v3_client"
          { auth := .url (some u), cls := "identity.v3.V3TokenClient",
            params := cfg.default_params, extra := [] }
    | none =>
        { s with err := some (.invalidConfiguration
            "Identity v3 API enabled, but no identity.uri_v3 set") }
  else s

/-- The token-client steps of `Manager._set_identity_clients`
(clients.py:317-333): the v2 check runs first and, when it raises, the v3
check is never reached. -/
def setTokenClients (cfg : Config) (s : MState) : MState :=
  if cfg.api_v2 then
    match cfg.uri with
    | some u =>
        let s := setClient s "token_client"
          { auth := .url (some u), cls := "identity.v2.TokenClient",
            params := cfg.default_params, extra := [] }
        setTokenV3Client cfg s
    | none =>
        { s with err := some (.invalidConfiguration
            "Identity v2 API enabled, but no identity.uri set") }
  else setTokenV3Client cfg s

/-- The catalog-client part of `Manager._set_identity_clients`
(clients.py:259-315), after `params = self.parameters['identity']` resolved to
heap cell `r`.  Each sub-group copies the identity parameter dict
(`copy.copy`) into a fresh heap cell and overrides `endpoint_type` there; the
cell `r` itself is never written. -/
def identityCatalogClients (cfg : Config) (s : MState) (r : Nat) : MState :=
  let params := heapRead s.heap r
  -- params_v2_admin = copy.copy(params);
  -- params_v2_admin['endpoint_type'] = CONF.identity.v2_admin_endpoint_type
  let ha := heapAlloc s.heap params
  let h := dictAssign ha.1 ha.2 "endpoint_type" (.str cfg.v2_admin_endpoint_type)
  let params_v2_admin := heapRead h ha.2
  let s := addClients { s with heap := h } params_v2_admin identityV2AdminSpecs
  -- params_v2_public = copy.copy(params);
  -- params_v2_public['endpoint_type'] = CONF.identity.v2_public_endpoint_type
  let hp := heapAlloc s.heap params
  let h := dictAssign hp.1 hp.2 "endpoint_type" (.str cfg.v2_public_endpoint_type)
  let params_v2_public := heapRead h hp.2
  let s := addClients { s with heap := h } params_v2_public identityV2PublicSpecs
  -- params_v3 = copy.copy(params);
  -- params_v3['endpoint_type'] = CONF.identity.v3_endpoint_type
  let h3 := heapAlloc s.heap params
  let h := dictAssign h3.1 h3.2 "endpoint_type" (.str cfg.v3_endpoint_type)
  let params_v3 := heapRead h h3.2
  addClients { s with heap := h } params_v3 identityV3Specs

/-- `Manager._set_identity_clients` (clients.py:258-333): the catalog clients
(`identityCatalogClients`) followed by the token clients
(`setTokenClients`). -/
def _set_identity_clients (cfg : Config) (s : MState) : MState :=
  if s.err.isSome then s else
  match alistGet s.parameters "identity" with
  | none => { s with err := some (.keyError "identity") }
  | some r => setTokenClients cfg (identityCatalogClients cfg s r)

/-- `Manager._set_volume_clients` (clients.py:335-382). -/
def _set_volume_clients (cfg : Config) (s : MState) : MState :=
  if s.err.isSome then s else
  match alistGet s.parameters "volume" with
  | none => { s with err := some (.keyError "volume") }
  | some r =>
      let params := heapRead s.heap r
      let s := addClients s params volumeSpecs1
      let s := addC s "volumes_client" "volume.v1.VolumesClient" params
        [("default_volume_size", .int cfg.volume_size)]
      let s := addC s "volumes_v2_client" "volume.v2.VolumesClient" params
        [("default_volume_size", .int cfg.volume_size)]
      addClients s params volumeSpecs2

/-- `Manager._set_object_storage_clients` (clients.py:384-393). -/
def _set_object_storage_clients (s : MState) : MState :=
  if s.err.isSome then s else
  match alistGet s.parameters "object-storage" with
  | none => { s with err := some (.keyError "object-storage") }
  | some r =>
      let params := heapRead s.heap r
      addClients s params objectStorageSpecs

/-- The trailing constructions of `Manager.__init__` (clients.py:76-97):
the baremetal, orchestration, data-processing and negative clients, all built
with the shared auth provider and the class-level default parameter dicts. -/
def setFinalClients (cfg : Config) (service : Option String) (s : MState) :
    MState :=
  if s.err.isSome then s else
  let default_params_with_timeout_values :=
    dictUpdate
      [("build_interval", .int cfg.compute_build_interval),
       ("build_timeout", .int cfg.compute_build_timeout)]
      cfg.default_params
  let s := addC s "baremetal_client" "baremetal.BaremetalClient"
    default_params_with_timeout_values
    [("catalog_type", .str cfg.baremetal_catalog_type),
     ("region", .str cfg.region),
     ("endpoint_type", .str cfg.baremetal_endpoint_type)]
  let s := addC s "orchestration_client" "orchestration.OrchestrationClient"
    cfg.default_params
    [("catalog_type", .str cfg.orchestration_catalog_type),
     ("region", .str (if cfg.orchestration_region.data.isEmpty then cfg.region
                      else cfg.orchestration_region)),
     ("endpoint_type", .str cfg.orchestration_endpoint_type),
     ("build_interval", .int cfg.orchestration_build_interval),
     ("build_timeout", .int cfg.orchestration_build_timeout)]
  let s := addC s "data_processing_client" "data_processing.DataProcessingClient"
    default_params_with_timeout_values
    [("catalog_type", .str cfg.data_processing_catalog_type),
     ("region", .str cfg.region),
     ("endpoint_type", .str cfg.data_processing_endpoint_type)]
  addC s "negative_client" "negative_rest_client.NegativeRestClient"
    cfg.default_params
    [("service", match service with | some sv => .str sv | none => .noneV)]

/-- `Manager.__init__` (clients.py:53-97).  `modules` stands for
`service_clients.tempest_modules()` (repository code outside the sources under
study).  The `client_parameters` argument of the `super().__init__` call is
evaluated before that call runs; `get_auth_provider_class` is consulted first
for the identity URI and never raises. -/
def Manager.init (cfg : Config) (modules : List String)
    (credentials : Option Credentials) (service : Option String) : MState :=
  let _identity_uri := (get_auth_provider_class cfg credentials).2
  let client_parameters := (_prepare_configuration cfg modules).1
  let s := ServiceClients.init credentials client_parameters
  let s := _set_compute_clients cfg s
  let s := _set_identity_clients cfg s
  let s := _set_volume_clients cfg s
  let s := _set_object_storage_clients s
  let s := _set_image_clients cfg s
  let s := _set_network_clients s
  setFinalClients cfg service s

/-- `h'` extends `h`: the heap only grew, and every cell of `h` is unchanged. -/
def HeapExt (h h' : Heap) : Prop :=
  h.length ≤ h'.length ∧ ∀ r, r < h.length → heapRead h' r = heapRead h r

/-- The attribute names `_set_compute_clients` can assign. -/
def computeAttrNames : List String :=
  computeSpecs1.map Prod.fst ++
    "servers_client" :: (computeSpecs2.map Prod.fst ++ computeProxySpecs.map Prod.fst)

/-- The attribute names the identity catalog clients can assign. -/
def identityCatalogAttrNames : List String :=
  identityV2AdminSpecs.map Prod.fst ++
    (identityV2PublicSpecs.map Prod.fst ++ identityV3Specs.map Prod.fst)

/-- The attribute names `_set_volume_clients` can assign. -/
def volumeAttrNames : List String :=
  volumeSpecs1.map Prod.fst ++
    "volumes_client" :: "volumes_v2_client" :: volumeSpecs2.map Prod.fst

/-- The attribute names assigned at the tail of `Manager.__init__`. -/
def finalAttrNames : List String :=
  ["baremetal_client", "orchestration_client", "data_processing_client",
   "negative_client"]

/-- The invariant satisfied by every client attribute a Manager assigns:
it was constructed with the shared auth provider `ap` (or it is one of the
two identity token clients, which take a raw URL instead), and when glance is
flagged unavailable it is not an image client. -/
def GoodKV (cfg : Config) (ap : Nat) (kv : String × Client) : Prop :=
  (kv.2.auth = .provider ap ∨ kv.1 = "token_client" ∨ kv.1 = "token_v3_client") ∧
  (cfg.glance = false → kv.1 ∉ imageSpecs.map Prod.fst)

/-- A concrete configuration used to instantiate the claims on explicit
inputs: both identity APIs enabled with their URIs set, glance available, and
a configuration oracle that resolves the six core services. -/
def cfgW : Config :=
  { uri := some "http://u2", uri_v3 := some "http://u3",
    api_v2 := true, api_v3 := true, glance := true,
    region := "R1", v2_admin_endpoint_type := "adminURL",
    v2_public_endpoint_type := "publicURL", v3_endpoint_type := "adminURL",
    enable_instance_password := true, volume_size := 1,
    compute_build_interval := 1, compute_build_timeout := 300,
    baremetal_catalog_type := "baremetal", baremetal_endpoint_type := "publicURL",
    orchestration_catalog_type := "orchestration", orchestration_region := "",
    orchestration_endpoint_type := "publicURL", orchestration_build_interval := 1,
    orchestration_build_timeout := 1200,
    data_processing_catalog_type := "data-processing",
    data_processing_endpoint_type := "publicURL",
    default_params := [],
    svcConfig := fun sname =>
      if sname ∈ ["compute", "identity", "volume", "image", "network",
                  "object-storage"] then some [("region", PVal.str "R1")]
      else none }

/-- A concrete stand-in for `service_clients.tempest_modules()`: the versioned
tempest module names of the core services. -/
def modulesW : List String :=
  ["compute", "identity.v2", "identity.v3", "image.v1", "image.v2",
   "network", "object-storage", "volume.v1", "volume.v2", "volume.v3"]

/-- Occurrence count of a string in a list (used for the ghost fetch log). -/
def countStr : List String → String → Nat
  | [], _ => 0
  | x :: t, k => (if x = k then 1 else 0) + countStr t k

/-- The pure value of the override loop of `_set_compute_clients` on one key:
look the key up in the volume parameter dict and, when present and truthy,
write it into the accumulating dict. -/
def pyOverrideStep (pvol : Params) (d : Params) (k : String) : Params :=
  match alistGet pvol k with
  | some v => if v.truthy then alistSet d k v else d
  | none => d

/-- The pure value of the override loop of `_set_compute_clients`. -/
def pyOverride (pvol : Params) (keys : List String) (d : Params) : Params :=
  keys.foldl (pyOverrideStep pvol) d

/-- The loop invariant of `_prepare_configuration`: every stored entry is the
successfully fetched configuration of its key, keys whose fetch raises are
absent, a service with fetchable configuration appears in the fetch log at
most once (exactly once iff it has been stored), and every logged name is an
unversioned module name from `ms`. -/
def PrepInv (cfg : Config) (ms : List String)
    (acc : AList Params × List String) : Prop :=
  (∀ k p, alistGet acc.1 k = some p → cfg.svcConfig k = some p) ∧
  (∀ k, cfg.svcConfig k = none → alistGet acc.1 k = none) ∧
  (∀ k, (cfg.svcConfig k).isSome = true →
    countStr acc.2 k ≤ 1 ∧
      (countStr acc.2 k = 1 ↔ (alistGet acc.1 k).isSome = true)) ∧
  (∀ k ∈ acc.2, k ∈ ms)

/-- Configuration for the C2 counterexample: identity v2 enabled with
`identity.uri` unset, while identity v3 is enabled with `identity.uri_v3`
set. -/
def cfgC2 : Config :=
  { cfgW with uri := none, api_v2 := true, api_v3 := true }

/-- A minimal construction state whose `parameters` resolve `identity`,
with no client assigned yet and no pending exception. -/
def sC2 : MState :=
  { heap := [[]], parameters := [("identity", 0)], authProvider := 0,
    clients := [], err := none }

/-- Configuration for the C7 counterexample: every configuration fetch raises
`UnknownServiceClient`. -/
def cfgC7 : Config :=
  { cfgW with svcConfig := fun _ => none }

/-- A concrete state for the C8 witness: compute parameters in cell 0, volume
parameters (truthy `build_interval`, falsy `build_timeout`) in cell 1. -/
def sC8 : MState :=
  { heap := [[("build_interval", PVal.int 10), ("build_timeout", PVal.int 300)],
             [("build_interval", PVal.int 5), ("build_timeout", PVal.int 0)]],
    parameters := [("compute", 0), ("volume", 1)], authProvider := 0,
    clients := [], err := none }

/-- A concrete state for the C10 witness: compute, volume and identity
parameter dicts in cells 0, 1 and 2. -/
def sC10 : MState :=
  { heap := [[("build_interval", PVal.int 10)],
             [("build_interval", PVal.int 5)],
             [("endpoint_type", PVal.str "x")]],
    parameters := [("compute", 0), ("volume", 1), ("identity", 2)],
    authProvider := 0, clients := [], err := none }

/-! ### Association-list lemmas -/

@[simp]
theorem alistGet_set {α : Type} (l : AList α) (k : String) (v : α) (k' : String) :
    alistGet (alistSet l k v) k' = if k' = k then some v else alistGet l k' := by
  induction l with
  | nil => simp [alistSet, alistGet]
  | cons hd tl ih =>
      obtain ⟨k₀, v₀⟩ := hd
      by_cases hk : k = k₀
      · subst hk
        simp only [alistSet, if_pos rfl, alistGet, ih]
        by_cases h1 : k' = k <;> simp [h1, alistGet]
      · simp only [alistSet, if_neg hk, alistGet, ih]
        by_cases h1 : k' = k₀
        · subst h1
          simp [Ne.symm hk, alistGet]
        · simp [h1, alistGet]

theorem mem_alistSet {α : Type} {l : AList α} {k : String} {v : α}
    {kv : String × α} (h : kv ∈ alistSet l k v) : kv = (k, v) ∨ kv ∈ l := by
  induction l with
  | nil => simpa [alistSet] using h
  | cons hd tl ih =>
      obtain ⟨k₀, v₀⟩ := hd
      by_cases hk : k = k₀
      · subst hk
        rcases (by simpa [alistSet] using h : kv = (k, v) ∨ kv ∈ tl) with h' | h'
        · exact Or.inl h'
        · exact Or.inr (List.mem_cons_of_mem _ h')
      · rcases (by simpa [alistSet, hk] using h :
            kv = (k₀, v₀) ∨ kv ∈ alistSet tl k v) with h' | h'
        · exact Or.inr (by simp [h'])
        · rcases ih h' with h'' | h''
          · exact Or.inl h''
          · exact Or.inr (List.mem_cons_of_mem _ h'')

theorem alistGet_some_mem {α : Type} {l : AList α} {k : String} {v : α}
    (h : alistGet l k = some v) : (k, v) ∈ l := by
  induction l with
  | nil => simp [alistGet] at h
  | cons hd tl ih =>
      obtain ⟨k₀, v₀⟩ := hd
      by_cases hk : k = k₀
      · subst hk
        simp [alistGet] at h
        simp [h]
      · simp only [alistGet, if_neg hk] at h
        exact List.mem_cons_of_mem _ (ih h)

theorem alistGet_eq_none_of_forall {α : Type} {l : AList α} {k : String}
    (h : ∀ kv ∈ l, kv.1 ≠ k) : alistGet l k = none := by
  induction l with
  | nil => rfl
  | cons hd tl ih =>
      obtain ⟨k₀, v₀⟩ := hd
      have hk : k ≠ k₀ := fun he => h (k₀, v₀) (by simp) (by simp [he])
      simp only [alistGet, if_neg hk]
      exact ih fun kv hm => h kv (List.mem_cons_of_mem _ hm)

/-! ### Heap lemmas -/

@[simp]
theorem length_heapWrite (h : Heap) (r : Nat) (p : Params) :
    (heapWrite h r p).length = h.length := by
  induction h generalizing r with
  | nil => rfl
  | cons q t ih =>
      cases r with
      | zero => rfl
      | succ r => simp [heapWrite, ih]

theorem heapRead_heapWrite_self {h : Heap} {r : Nat} (p : Params)
    (hr : r < h.length) : heapRead (heapWrite h r p) r = p := by
  induction h generalizing r with
  | nil => simp at hr
  | cons q t ih =>
      cases r with
      | zero => rfl
      | succ r => exact ih (by simpa using hr)

theorem heapRead_heapWrite_ne {h : Heap} {r r' : Nat} (p : Params)
    (hne : r' ≠ r) : heapRead (heapWrite h r p) r' = heapRead h r' := by
  induction h generalizing r r' with
  | nil => rfl
  | cons q t ih =>
      cases r with
      | zero =>
          cases r' with
          | zero => exact absurd rfl hne
          | succ r' => rfl
      | succ r =>
          cases r' with
          | zero => rfl
          | succ r' => exact ih fun he => hne (by simp [he])

theorem heapRead_append_lt {h : Heap} (h₂ : Heap) {r : Nat}
    (hr : r < h.length) : heapRead (h ++ h₂) r = heapRead h r := by
  induction h generalizing r with
  | nil => simp at hr
  | cons q t ih =>
      cases r with
      | zero => rfl
      | succ r => exact ih (by simpa using hr)

theorem heapRead_append_self (h : Heap) (p : Params) :
    heapRead (h ++ [p]) h.length = p := by
  induction h with
  | nil => rfl
  | cons q t ih => simpa [heapRead] using ih

theorem heapExt_rfl (h : Heap) : HeapExt h h := ⟨le_refl _, fun _ _ => rfl⟩

theorem HeapExt.trans {h₁ h₂ h₃ : Heap} (a : HeapExt h₁ h₂) (b : HeapExt h₂ h₃) :
    HeapExt h₁ h₃ :=
  ⟨le_trans a.1 b.1, fun r hr => (b.2 r (lt_of_lt_of_le hr a.1)).trans (a.2 r hr)⟩

theorem heapExt_append (h h₂ : Heap) : HeapExt h (h ++ h₂) :=
  ⟨by simp, fun r hr => heapRead_append_lt h₂ hr⟩

theorem HeapExt.write_ge {h h' : Heap} (e : HeapExt h h') {r : Nat}
    (hr : h.length ≤ r) (p : Params) : HeapExt h (heapWrite h' r p) :=
  ⟨by simpa using e.1, fun r' hr' =>
    (heapRead_heapWrite_ne p (Nat.ne_of_lt (lt_of_lt_of_le hr' hr))).trans
      (e.2 r' hr')⟩

theorem HeapExt.dictAssign_ge {h h' : Heap} (e : HeapExt h h') {r : Nat}
    (hr : h.length ≤ r) (k : String) (v : PVal) :
    HeapExt h (dictAssign h' r k v) :=
  e.write_ge hr _

/-! ### Construction-state step lemmas -/

@[simp] theorem setClient_heap (s : MState) (n : String) (c : Client) :
    (setClient s n c).heap = s.heap := rfl

@[simp] theorem setClient_parameters (s : MState) (n : String) (c : Client) :
    (setClient s n c).parameters = s.parameters := rfl

@[simp] theorem setClient_authProvider (s : MState) (n : String) (c : Client) :
    (setClient s n c).authProvider = s.authProvider := rfl

@[simp] theorem setClient_err (s : MState) (n : String) (c : Client) :
    (setClient s n c).err = s.err := rfl

@[simp] theorem setClient_clients (s : MState) (n : String) (c : Client) :
    (setClient s n c).clients = alistSet s.clients n c := rfl

@[simp] theorem addC_heap (s : MState) (n cls : String) (p e : Params) :
    (addC s n cls p e).heap = s.heap := rfl

@[simp] theorem addC_parameters (s : MState) (n cls : String) (p e : Params) :
    (addC s n cls p e).parameters = s.parameters := rfl

@[simp] theorem addC_authProvider (s : MState) (n cls : String) (p e : Params) :
    (addC s n cls p e).authProvider = s.authProvider := rfl

@[simp] theorem addC_err (s : MState) (n cls : String) (p e : Params) :
    (addC s n cls p e).err = s.err := rfl

@[simp] theorem addC_clients (s : MState) (n cls : String) (p e : Params) :
    (addC s n cls p e).clients =
      alistSet s.clients n
        { auth := .provider s.authProvider, cls := cls, params := p, extra := e } :=
  rfl

@[simp] theorem addClients_heap (s : MState) (p : Params)
    (specs : List (String × String)) : (addClients s p specs).heap = s.heap := by
  induction specs generalizing s with
  | nil => rfl
  | cons sp t ih => simpa [addClients] using ih (addC s sp.1 sp.2 p [])

@[simp] theorem addClients_parameters (s : MState) (p : Params)
    (specs : List (String × String)) :
    (addClients s p specs).parameters = s.parameters := by
  induction specs generalizing s with
  | nil => rfl
  | cons sp t ih => simpa [addClients] using ih (addC s sp.1 sp.2 p [])

@[simp] theorem addClients_authProvider (s : MState) (p : Params)
    (specs : List (String × String)) :
    (addClients s p specs).authProvider = s.authProvider := by
  induction specs generalizing s with
  | nil => rfl
  | cons sp t ih => simpa [addClients] using ih (addC s sp.1 sp.2 p [])

@[simp] theorem addClients_err (s : MState) (p : Params)
    (specs : List (String × String)) : (addClients s p specs).err = s.err := by
  induction specs generalizing s with
  | nil => rfl
  | cons sp t ih => simpa [addClients] using ih (addC s sp.1 sp.2 p [])

theorem addClients_get_notMem (s : MState) (p : Params)
    (specs : List (String × String)) {n : String}
    (hn : n ∉ specs.map Prod.fst) :
    alistGet (addClients s p specs).clients n = alistGet s.clients n := by
  induction specs generalizing s with
  | nil => rfl
  | cons sp t ih =>
      have hn1 : n ≠ sp.1 := by simp at hn; exact hn.1
      have hn2 : n ∉ t.map Prod.fst := by simp at hn; simpa using hn.2
      rw [show addClients s p (sp :: t) = addClients (addC s sp.1 sp.2 p []) p t
            from rfl,
          ih (addC s sp.1 sp.2 p []) hn2]
      simp [hn1]

theorem addClients_get_mem (s : MState) (p : Params)
    (specs : List (String × String)) {n cls : String}
    (hnd : (specs.map Prod.fst).Nodup) (hm : (n, cls) ∈ specs) :
    alistGet (addClients s p specs).clients n =
      some { auth := .provider s.authProvider, cls := cls, params := p,
             extra := [] } := by
  induction specs generalizing s with
  | nil => simp at hm
  | cons sp t ih =>
      rcases List.mem_cons.mp hm with he | ht
      · have hn2 : n ∉ t.map Prod.fst := by
          subst he; simpa using (List.nodup_cons.mp hnd).1
        rw [show addClients s p (sp :: t) = addClients (addC s sp.1 sp.2 p []) p t
              from rfl,
            addClients_get_notMem _ _ _ hn2]
        subst he
        simp
      · have hnd2 : (t.map Prod.fst).Nodup := (List.nodup_cons.mp hnd).2
        rw [show addClients s p (sp :: t) = addClients (addC s sp.1 sp.2 p []) p t
              from rfl]
        rw [ih (addC s sp.1 sp.2 p []) hnd2 ht]
        simp

theorem mem_addClients {s : MState} {p : Params}
    {specs : List (String × String)} {kv : String × Client}
    (h : kv ∈ (addClients s p specs).clients) :
    kv ∈ s.clients ∨
      (kv.1 ∈ specs.map Prod.fst ∧ kv.2.auth = .provider s.authProvider) := by
  induction specs generalizing s with
  | nil => exact Or.inl h
  | cons sp t ih =>
      rcases ih (s := addC s sp.1 sp.2 p [])
          (by simpa [addClients] using h) with h' | h'
      · rcases mem_alistSet (by simpa using h') with he | hm
        · exact Or.inr ⟨by simp [he], by simp [he]⟩
        · exact Or.inl hm
      · exact Or.inr ⟨by simp [h'.1], by simpa using h'.2⟩

/-! ### Parameter-allocation lemmas -/

theorem heapRead_append_add (h l : Heap) (i : Nat) :
    heapRead (h ++ l) (h.length + i) = heapRead l i := by
  induction h with
  | nil => simp [Nat.zero_add]
  | cons q t ih => simpa [heapRead, Nat.succ_add] using ih

theorem allocParamsAux_heap (h : Heap) (P : AList Params) :
    (allocParamsAux h P).1 = h ++ P.map Prod.snd := by
  induction P generalizing h with
  | nil => simp [allocParamsAux]
  | cons kp t ih => simp [allocParamsAux, ih]

theorem allocParamsAux_spec (h : Heap) (P : AList Params) {k : String}
    {p : Params} (hk : alistGet P k = some p) :
    ∃ r, alistGet (allocParamsAux h P).2 k = some r ∧
      r < (allocParamsAux h P).1.length ∧
      heapRead (allocParamsAux h P).1 r = p := by
  induction P generalizing h with
  | nil => simp [alistGet] at hk
  | cons kp t ih =>
      obtain ⟨k₀, p₀⟩ := kp
      by_cases hkk : k = k₀
      · subst hkk
        have hp : p₀ = p := by simpa [alistGet] using hk
        subst hp
        refine ⟨h.length, by simp [allocParamsAux, alistGet], ?_, ?_⟩
        · simp [allocParamsAux_heap]
        · rw [allocParamsAux_heap]
          simpa using heapRead_append_add h _ 0
      · have hk' : alistGet t k = some p := by simpa [alistGet, hkk] using hk
        obtain ⟨r, h1, h2, h3⟩ := ih (h ++ [p₀]) hk'
        exact ⟨r, by simpa [allocParamsAux, alistGet, hkk] using h1,
          by simpa [allocParamsAux] using h2, by simpa [allocParamsAux] using h3⟩

theorem ServiceClients.init_clients (credentials : Option Credentials)
    (P : AList Params) : (ServiceClients.init credentials P).clients = [] := by
  cases credentials <;> rfl

theorem ServiceClients.init_spec (c : Credentials) (P : AList Params) :
    (ServiceClients.init (some c) P).err = none ∧
    (ServiceClients.init (some c) P).authProvider = 0 ∧
    ∀ k p, alistGet P k = some p →
      ∃ r, alistGet (ServiceClients.init (some c) P).parameters k = some r ∧
        r < (ServiceClients.init (some c) P).heap.length ∧
        heapRead (ServiceClients.init (some c) P).heap r = p := by
  refine ⟨rfl, rfl, fun k p hk => ?_⟩
  simpa [ServiceClients.init] using allocParamsAux_spec [] P hk

/-! ### Builder-level lemmas -/

theorem mem_set_network_clients {s : MState} {kv : String × Client}
    (h : kv ∈ (_set_network_clients s).clients) :
    kv ∈ s.clients ∨
      (kv.1 ∈ networkSpecs.map Prod.fst ∧
        kv.2.auth = .provider s.authProvider) := by
  unfold _set_network_clients at h
  split at h
  · exact Or.inl h
  · split at h
    · exact Or.inl h
    · exact mem_addClients h

theorem mem_set_object_storage_clients {s : MState} {kv : String × Client}
    (h : kv ∈ (_set_object_storage_clients s).clients) :
    kv ∈ s.clients ∨
      (kv.1 ∈ objectStorageSpecs.map Prod.fst ∧
        kv.2.auth = .provider s.authProvider) := by
  unfold _set_object_storage_clients at h
  split at h
  · exact Or.inl h
  · split at h
    · exact Or.inl h
    · exact mem_addClients h

theorem mem_set_image_clients {cfg : Config} {s : MState} {kv : String × Client}
    (h : kv ∈ (_set_image_clients cfg s).clients) :
    kv ∈ s.clients ∨
      (kv.1 ∈ imageSpecs.map Prod.fst ∧
        kv.2.auth = .provider s.authProvider) := by
  unfold _set_image_clients at h
  split at h
  · exact Or.inl h
  · split at h
    · split at h
      · exact Or.inl h
      · exact mem_addClients h
    · exact Or.inl h

theorem mem_set_volume_clients {cfg : Config} {s : MState} {kv : String × Client}
    (h : kv ∈ (_set_volume_clients cfg s).clients) :
    kv ∈ s.clients ∨
      (kv.1 ∈ volumeAttrNames ∧ kv.2.auth = .provider s.authProvider) := by
  unfold _set_volume_clients at h
  split at h
  · exact Or.inl h
  · split at h
    · exact Or.inl h
    · rcases mem_addClients h with h' | h'
      · rcases mem_alistSet (by simpa using h') with he | h''
        · exact Or.inr ⟨by simp [he, volumeAttrNames], by simp [he]⟩
        · rcases mem_alistSet (by simpa using h'') with he | h''
          · exact Or.inr ⟨by simp [he, volumeAttrNames], by simp [he]⟩
          · rcases mem_addClients h'' with h3 | h3
            · exact Or.inl h3
            · exact Or.inr ⟨by simp [volumeAttrNames, h3.1], by simpa using h3.2⟩
      · exact Or.inr ⟨by simp [volumeAttrNames, h'.1], by simpa using h'.2⟩

theorem mem_computeProxyPart {s : MState} {params : Params} {kv : String × Client}
    (h : kv ∈ (computeProxyPart s params).clients) :
    kv ∈ s.clients ∨
      (kv.1 ∈ computeProxySpecs.map Prod.fst ∧
        kv.2.auth = .provider s.authProvider) := by
  unfold computeProxyPart at h
  cases hvol : alistGet s.parameters "volume" with
  | none =>
      simp only [hvol] at h
      exact Or.inl h
  | some rv =>
      simp only [hvol] at h
      exact mem_addClients h

theorem mem_set_compute_clients {cfg : Config} {s : MState} {kv : String × Client}
    (h : kv ∈ (_set_compute_clients cfg s).clients) :
    kv ∈ s.clients ∨
      (kv.1 ∈ computeAttrNames ∧ kv.2.auth = .provider s.authProvider) := by
  unfold _set_compute_clients at h
  split at h
  · exact Or.inl h
  · split at h
    · exact Or.inl h
    · rcases mem_computeProxyPart h with h' | h'
      · rcases mem_addClients h' with h'' | h''
        · rcases mem_alistSet (by simpa using h'') with he | h3
          · exact Or.inr ⟨by simp [he, computeAttrNames], by simp [he]⟩
          · rcases mem_addClients h3 with h4 | h4
            · exact Or.inl h4
            · exact Or.inr ⟨by simp [computeAttrNames, h4.1], by simpa using h4.2⟩
        · exact Or.inr ⟨by simp [computeAttrNames, h''.1], by simpa using h''.2⟩
      · exact Or.inr ⟨by simp [computeAttrNames, h'.1], by simpa using h'.2⟩

theorem mem_setTokenV3Client {cfg : Config} {s : MState} {kv : String × Client}
    (h : kv ∈ (setTokenV3Client cfg s).clients) :
    kv ∈ s.clients ∨ kv.1 = "token_v3_client" := by
  unfold setTokenV3Client at h
  split at h
  · split at h
    · rcases mem_alistSet (by simpa using h) with he | hm
      · exact Or.inr (by simp [he])
      · exact Or.inl hm
    · exact Or.inl h
  · exact Or.inl h

theorem mem_setTokenClients {cfg : Config} {s : MState} {kv : String × Client}
    (h : kv ∈ (setTokenClients cfg s).clients) :
    kv ∈ s.clients ∨ kv.1 = "token_client" ∨ kv.1 = "token_v3_client" := by
  unfold setTokenClients at h
  split at h
  · split at h
    · rcases mem_setTokenV3Client h with h' | h'
      · rcases mem_alistSet (by simpa using h') with he | hm
        · exact Or.inr (Or.inl (by simp [he]))
        · exact Or.inl hm
      · exact Or.inr (Or.inr h')
    · exact Or.inl h
  · rcases mem_setTokenV3Client h with h' | h'
    · exact Or.inl h'
    · exact Or.inr (Or.inr h')

theorem mem_identityCatalogClients {cfg : Config} {s : MState} {r : Nat}
    {kv : String × Client} (h : kv ∈ (identityCatalogClients cfg s r).clients) :
    kv ∈ s.clients ∨
      (kv.1 ∈ identityCatalogAttrNames ∧
        kv.2.auth = .provider s.authProvider) := by
  unfold identityCatalogClients at h
  rcases mem_addClients h with h' | h'
  · rcases mem_addClients h' with h'' | h''
    · rcases mem_addClients h'' with h3 | h3
      · exact Or.inl h3
      · exact Or.inr ⟨by simp [identityCatalogAttrNames, h3.1],
          by simpa using h3.2⟩
    · exact Or.inr ⟨by simp [identityCatalogAttrNames, h''.1],
        by simpa using h''.2⟩
  · exact Or.inr ⟨by simp [identityCatalogAttrNames, h'.1],
      by simpa using h'.2⟩

theorem mem_set_identity_clients {cfg : Config} {s : MState} {kv : String × Client}
    (h : kv ∈ (_set_identity_clients cfg s).clients) :
    kv ∈ s.clients ∨
      (kv.1 ∈ identityCatalogAttrNames ∧ kv.2.auth = .provider s.authProvider) ∨
      kv.1 = "token_client" ∨ kv.1 = "token_v3_client" := by
  unfold _set_identity_clients at h
  split at h
  · exact Or.inl h
  · split at h
    · exact Or.inl h
    · rcases mem_setTokenClients h with h' | h'
      · rcases mem_identityCatalogClients h' with h'' | h''
        · exact Or.inl h''
        · exact Or.inr (Or.inl h'')
      · exact Or.inr (Or.inr h')

theorem mem_setFinalClients {cfg : Config} {service : Option String} {s : MState}
    {kv : String × Client} (h : kv ∈ (setFinalClients cfg service s).clients) :
    kv ∈ s.clients ∨
      (kv.1 ∈ finalAttrNames ∧ kv.2.auth = .provider s.authProvider) := by
  unfold setFinalClients at h
  split at h
  · exact Or.inl h
  · rcases mem_alistSet (by simpa using h) with he | h1
    · exact Or.inr ⟨by simp [he, finalAttrNames], by simp [he]⟩
    · rcases mem_alistSet h1 with he | h2
      · exact Or.inr ⟨by simp [he, finalAttrNames], by simp [he]⟩
      · rcases mem_alistSet h2 with he | h3
        · exact Or.inr ⟨by simp [he, finalAttrNames], by simp [he]⟩
        · rcases mem_alistSet h3 with he | h4
          · exact Or.inr ⟨by simp [he, finalAttrNames], by simp [he]⟩
          · exact Or.inl h4

/-! ### Token-client step lemmas -/

@[simp] theorem setTokenV3Client_heap (cfg : Config) (s : MState) :
    (setTokenV3Client cfg s).heap = s.heap := by
  unfold setTokenV3Client
  split
  · split <;> rfl
  · rfl

@[simp] theorem setTokenV3Client_parameters (cfg : Config) (s : MState) :
    (setTokenV3Client cfg s).parameters = s.parameters := by
  unfold setTokenV3Client
  split
  · split <;> rfl
  · rfl

@[simp] theorem setTokenV3Client_authProvider (cfg : Config) (s : MState) :
    (setTokenV3Client cfg s).authProvider = s.authProvider := by
  unfold setTokenV3Client
  split
  · split <;> rfl
  · rfl

@[simp] theorem setTokenClients_heap (cfg : Config) (s : MState) :
    (setTokenClients cfg s).heap = s.heap := by
  unfold setTokenClients
  split
  · split
    · simp
    · rfl
  · simp

@[simp] theorem setTokenClients_parameters (cfg : Config) (s : MState) :
    (setTokenClients cfg s).parameters = s.parameters := by
  unfold setTokenClients
  split
  · split
    · simp
    · rfl
  · simp

@[simp] theorem setTokenClients_authProvider (cfg : Config) (s : MState) :
    (setTokenClients cfg s).authProvider = s.authProvider := by
  unfold setTokenClients
  split
  · split
    · simp
    · rfl
  · simp

theorem setTokenV3Client_get_preserve (cfg : Config) (s : MState) {n : String}
    (h3 : n ≠ "token_v3_client") :
    alistGet (setTokenV3Client cfg s).clients n = alistGet s.clients n := by
  unfold setTokenV3Client
  split
  · split
    · simp [h3]
    · rfl
  · rfl

theorem setTokenClients_get_preserve (cfg : Config) (s : MState) {n : String}
    (h2 : n ≠ "token_client") (h3 : n ≠ "token_v3_client") :
    alistGet (setTokenClients cfg s).clients n = alistGet s.clients n := by
  unfold setTokenClients
  split
  · split
    · simp only [setTokenV3Client_get_preserve cfg _ h3]
      simp [h2]
    · rfl
  · exact setTokenV3Client_get_preserve cfg s h3

theorem setTokenV3Client_err_ok (cfg : Config) (s : MState)
    (h : cfg.api_v3 = true → (cfg.uri_v3).isSome = true) :
    (setTokenV3Client cfg s).err = s.err := by
  unfold setTokenV3Client
  split
  · rename_i hv3
    cases hu : cfg.uri_v3 with
    | none => rw [hu] at h; simp [hv3] at h
    | some u => simp
  · rfl

theorem setTokenClients_err_ok (cfg : Config) (s : MState)
    (h2 : cfg.api_v2 = true → (cfg.uri).isSome = true)
    (h3 : cfg.api_v3 = true → (cfg.uri_v3).isSome = true) :
    (setTokenClients cfg s).err = s.err := by
  unfold setTokenClients
  split
  · rename_i hv2
    cases hu : cfg.uri with
    | none => rw [hu] at h2; simp [hv2] at h2
    | some u =>
        rw [setTokenV3Client_err_ok cfg _ h3]
        simp
  · exact setTokenV3Client_err_ok cfg s h3

/-- When the identity v2 API is enabled and `identity.uri` is unset, the token
step raises InvalidConfiguration immediately (the v3 step is not reached). -/
theorem setTokenClients_v2_missing (cfg : Config) (s : MState)
    (hv2 : cfg.api_v2 = true) (hu : cfg.uri = none) :
    setTokenClients cfg s =
      { s with err := some (.invalidConfiguration
          "Identity v2 API enabled, but no identity.uri set") } := by
  unfold setTokenClients
  simp [hv2, hu]

/-- When the identity v2 API is enabled and `identity.uri` is set, the token
step assigns `token_client` and continues with the v3 step. -/
theorem setTokenClients_v2_set (cfg : Config) (s : MState) {u : String}
    (hv2 : cfg.api_v2 = true) (hu : cfg.uri = some u) :
    setTokenClients cfg s =
      setTokenV3Client cfg (setClient s "token_client"
        { auth := .url (some u), cls := "identity.v2.TokenClient",
          params := cfg.default_params, extra := [] }) := by
  unfold setTokenClients
  simp [hv2, hu]

theorem setTokenClients_v2_disabled (cfg : Config) (s : MState)
    (hv2 : cfg.api_v2 = false) :
    setTokenClients cfg s = setTokenV3Client cfg s := by
  unfold setTokenClients
  simp [hv2]

theorem setTokenV3Client_v3_missing (cfg : Config) (s : MState)
    (hv3 : cfg.api_v3 = true) (hu : cfg.uri_v3 = none) :
    setTokenV3Client cfg s =
      { s with err := some (.invalidConfiguration
          "Identity v3 API enabled, but no identity.uri_v3 set") } := by
  unfold setTokenV3Client
  simp [hv3, hu]

theorem setTokenV3Client_v3_set (cfg : Config) (s : MState) {u : String}
    (hv3 : cfg.api_v3 = true) (hu : cfg.uri_v3 = some u) :
    setTokenV3Client cfg s =
      setClient s "token_v3_client"
        { auth := .url (some u), cls := "identity.v3.V3TokenClient",
          params := cfg.default_params, extra := [] } := by
  unfold setTokenV3Client
  simp [hv3, hu]

theorem setTokenV3Client_v3_disabled (cfg : Config) (s : MState)
    (hv3 : cfg.api_v3 = false) :
    setTokenV3Client cfg s = s := by
  unfold setTokenV3Client
  simp [hv3]

/-! ### Builder field-preservation and error-progress lemmas -/

@[simp] theorem set_network_clients_parameters (s : MState) :
    (_set_network_clients s).parameters = s.parameters := by
  unfold _set_network_clients
  split
  · rfl
  · split
    · rfl
    · simp

@[simp] theorem set_network_clients_authProvider (s : MState) :
    (_set_network_clients s).authProvider = s.authProvider := by
  unfold _set_network_clients
  split
  · rfl
  · split
    · rfl
    · simp

@[simp] theorem set_network_clients_heap (s : MState) :
    (_set_network_clients s).heap = s.heap := by
  unfold _set_network_clients
  split
  · rfl
  · split
    · rfl
    · simp

theorem set_network_clients_get_preserve (s : MState) {n : String}
    (hn : n ∉ networkSpecs.map Prod.fst) :
    alistGet (_set_network_clients s).clients n = alistGet s.clients n := by
  unfold _set_network_clients
  split
  · rfl
  · split
    · rfl
    · exact addClients_get_notMem _ _ _ hn

@[simp] theorem set_object_storage_clients_parameters (s : MState) :
    (_set_object_storage_clients s).parameters = s.parameters := by
  unfold _set_object_storage_clients
  split
  · rfl
  · split
    · rfl
    · simp

@[simp] theorem set_object_storage_clients_authProvider (s : MState) :
    (_set_object_storage_clients s).authProvider = s.authProvider := by
  unfold _set_object_storage_clients
  split
  · rfl
  · split
    · rfl
    · simp

@[simp] theorem set_object_storage_clients_heap (s : MState) :
    (_set_object_storage_clients s).heap = s.heap := by
  unfold _set_object_storage_clients
  split
  · rfl
  · split
    · rfl
    · simp

theorem set_object_storage_clients_err_ok (s : MState) {r : Nat}
    (hr : alistGet s.parameters "object-storage" = some r) :
    (_set_object_storage_clients s).err = s.err := by
  unfold _set_object_storage_clients
  split
  · rfl
  · rw [hr]
    simp

@[simp] theorem set_image_clients_parameters (cfg : Config) (s : MState) :
    (_set_image_clients cfg s).parameters = s.parameters := by
  unfold _set_image_clients
  split
  · rfl
  · split
    · split
      · rfl
      · simp
    · rfl

@[simp] theorem set_image_clients_authProvider (cfg : Config) (s : MState) :
    (_set_image_clients cfg s).authProvider = s.authProvider := by
  unfold _set_image_clients
  split
  · rfl
  · split
    · split
      · rfl
      · simp
    · rfl

@[simp] theorem set_image_clients_heap (cfg : Config) (s : MState) :
    (_set_image_clients cfg s).heap = s.heap := by
  unfold _set_image_clients
  split
  · rfl
  · split
    · split
      · rfl
      · simp
    · rfl

/-- With glance flagged unavailable, `_set_image_clients` does nothing at
all. -/
theorem set_image_clients_glance_false (cfg : Config) (s : MState)
    (hg : cfg.glance = false) : _set_image_clients cfg s = s := by
  unfold _set_image_clients
  split
  · rfl
  · simp [hg]

theorem set_image_clients_err_ok (cfg : Config) (s : MState) {r : Nat}
    (hg : cfg.glance = true) (hr : alistGet s.parameters "image" = some r) :
    (_set_image_clients cfg s).err = s.err := by
  unfold _set_image_clients
  split
  · rfl
  · rw [hr]
    simp

/-- With glance flagged available and the image parameters resolved, every
image client is assigned, with the shared auth provider and the image
parameter dict. -/
theorem set_image_clients_set (cfg : Config) {s : MState} {r : Nat}
    (herr : s.err = none) (hg : cfg.glance = true)
    (hr : alistGet s.parameters "image" = some r) {n cls : String}
    (hm : (n, cls) ∈ imageSpecs) :
    alistGet (_set_image_clients cfg s).clients n =
      some { auth := .provider s.authProvider, cls := cls,
             params := heapRead s.heap r, extra := [] } := by
  unfold _set_image_clients
  split
  · rename_i hsome
    rw [herr] at hsome
    simp at hsome
  · rw [hr]
    exact addClients_get_mem _ _ _ (by decide) hm

@[simp] theorem set_volume_clients_parameters (cfg : Config) (s : MState) :
    (_set_volume_clients cfg s).parameters = s.parameters := by
  unfold _set_volume_clients
  split
  · rfl
  · split
    · rfl
    · simp

@[simp] theorem set_volume_clients_authProvider (cfg : Config) (s : MState) :
    (_set_volume_clients cfg s).authProvider = s.authProvider := by
  unfold _set_volume_clients
  split
  · rfl
  · split
    · rfl
    · simp

@[simp] theorem set_volume_clients_heap (cfg : Config) (s : MState) :
    (_set_volume_clients cfg s).heap = s.heap := by
  unfold _set_volume_clients
  split
  · rfl
  · split
    · rfl
    · simp

theorem set_volume_clients_err_ok (cfg : Config) (s : MState) {r : Nat}
    (hr : alistGet s.parameters "volume" = some r) :
    (_set_volume_clients cfg s).err = s.err := by
  unfold _set_volume_clients
  split
  · rfl
  · rw [hr]
    simp

theorem setFinalClients_parameters (cfg : Config) (service : Option String)
    (s : MState) : (setFinalClients cfg service s).parameters = s.parameters := by
  unfold setFinalClients
  split
  · rfl
  · simp

theorem setFinalClients_authProvider (cfg : Config) (service : Option String)
    (s : MState) :
    (setFinalClients cfg service s).authProvider = s.authProvider := by
  unfold setFinalClients
  split
  · rfl
  · simp

theorem setFinalClients_err (cfg : Config) (service : Option String)
    (s : MState) : (setFinalClients cfg service s).err = s.err := by
  unfold setFinalClients
  split
  · rfl
  · simp

theorem setFinalClients_get_preserve (cfg : Config) (service : Option String)
    (s : MState) {n : String} (hn : n ∉ finalAttrNames) :
    alistGet (setFinalClients cfg service s).clients n = alistGet s.clients n := by
  have h1 : n ≠ "baremetal_client" := by simp [finalAttrNames] at hn; tauto
  have h2 : n ≠ "orchestration_client" := by simp [finalAttrNames] at hn; tauto
  have h3 : n ≠ "data_processing_client" := by simp [finalAttrNames] at hn; tauto
  have h4 : n ≠ "negative_client" := by simp [finalAttrNames] at hn; tauto
  unfold setFinalClients
  split
  · rfl
  · simp [h1, h2, h3, h4]

theorem computeProxyPart_parameters (s : MState) (params : Params) :
    (computeProxyPart s params).parameters = s.parameters := by
  unfold computeProxyPart
  cases hvol : alistGet s.parameters "volume" <;> simp [hvol]

theorem computeProxyPart_authProvider (s : MState) (params : Params) :
    (computeProxyPart s params).authProvider = s.authProvider := by
  unfold computeProxyPart
  cases hvol : alistGet s.parameters "volume" <;> simp [hvol]

theorem computeProxyPart_err_ok {s : MState} {params : Params}
    (hv : (alistGet s.parameters "volume").isSome = true) :
    (computeProxyPart s params).err = s.err := by
  unfold computeProxyPart
  cases hm : alistGet s.parameters "volume" with
  | none => rw [hm] at hv; simp at hv
  | some rv => simp [hm]

@[simp] theorem set_compute_clients_parameters (cfg : Config) (s : MState) :
    (_set_compute_clients cfg s).parameters = s.parameters := by
  unfold _set_compute_clients
  split
  · rfl
  · split
    · rfl
    · simp [computeProxyPart_parameters]

@[simp] theorem set_compute_clients_authProvider (cfg : Config) (s : MState) :
    (_set_compute_clients cfg s).authProvider = s.authProvider := by
  unfold _set_compute_clients
  split
  · rfl
  · split
    · rfl
    · simp [computeProxyPart_authProvider]

theorem set_compute_clients_err_ok (cfg : Config) {s : MState}
    (hc : (alistGet s.parameters "compute").isSome = true)
    (hv : (alistGet s.parameters "volume").isSome = true) :
    (_set_compute_clients cfg s).err = s.err := by
  unfold _set_compute_clients
  split
  · rfl
  · split
    · rename_i heq
      rw [heq] at hc
      simp at hc
    · rw [computeProxyPart_err_ok (by simpa using hv)]
      simp

theorem identityCatalog_err (cfg : Config) (s : MState) (r : Nat) :
    (identityCatalogClients cfg s r).err = s.err := by
  unfold identityCatalogClients
  simp

theorem identityCatalog_parameters (cfg : Config) (s : MState) (r : Nat) :
    (identityCatalogClients cfg s r).parameters = s.parameters := by
  unfold identityCatalogClients
  simp

theorem identityCatalog_authProvider (cfg : Config) (s : MState) (r : Nat) :
    (identityCatalogClients cfg s r).authProvider = s.authProvider := by
  unfold identityCatalogClients
  simp

@[simp] theorem set_identity_clients_parameters (cfg : Config) (s : MState) :
    (_set_identity_clients cfg s).parameters = s.parameters := by
  unfold _set_identity_clients
  split
  · rfl
  · split
    · rfl
    · simp [identityCatalog_parameters]

@[simp] theorem set_identity_clients_authProvider (cfg : Config) (s : MState) :
    (_set_identity_clients cfg s).authProvider = s.authProvider := by
  unfold _set_identity_clients
  split
  · rfl
  · split
    · rfl
    · simp [identityCatalog_authProvider]

theorem set_identity_clients_err_ok (cfg : Config) {s : MState}
    (hr : (alistGet s.parameters "identity").isSome = true)
    (h2 : cfg.api_v2 = true → (cfg.uri).isSome = true)
    (h3 : cfg.api_v3 = true → (cfg.uri_v3).isSome = true) :
    (_set_identity_clients cfg s).err = s.err := by
  unfold _set_identity_clients
  split
  · rfl
  · split
    · rename_i heq
      rw [heq] at hr
      simp at hr
    · rw [setTokenClients_err_ok _ _ h2 h3, identityCatalog_err]

theorem set_volume_clients_err_ok2 (cfg : Config) {s : MState}
    (hr : (alistGet s.parameters "volume").isSome = true) :
    (_set_volume_clients cfg s).err = s.err := by
  unfold _set_volume_clients
  split
  · rfl
  · split
    · rename_i heq
      rw [heq] at hr
      simp at hr
    · simp

theorem set_object_storage_clients_err_ok2 {s : MState}
    (hr : (alistGet s.parameters "object-storage").isSome = true) :
    (_set_object_storage_clients s).err = s.err := by
  unfold _set_object_storage_clients
  split
  · rfl
  · split
    · rename_i heq
      rw [heq] at hr
      simp at hr
    · simp

theorem set_image_clients_err_ok2 (cfg : Config) {s : MState}
    (hg : cfg.glance = true)
    (hr : (alistGet s.parameters "image").isSome = true) :
    (_set_image_clients cfg s).err = s.err := by
  unfold _set_image_clients
  split
  · rfl
  · split
    · rename_i heq
      rw [heq] at hr
      simp at hr
    · simp

/-! ### Manager-level client inventory -/

theorem goodKV_Manager_init (cfg : Config) (modules : List String)
    (credentials : Option Credentials) (service : Option String) :
    ∀ kv ∈ (Manager.init cfg modules credentials service).clients,
      GoodKV cfg (Manager.init cfg modules credentials service).authProvider kv := by
  intro kv h
  have hap : (Manager.init cfg modules credentials service).authProvider =
      (ServiceClients.init credentials
        (_prepare_configuration cfg modules).1).authProvider := by
    simp [Manager.init, setFinalClients_authProvider]
  rw [hap]
  replace h : kv ∈ (setFinalClients cfg service (_set_network_clients
      (_set_image_clients cfg (_set_object_storage_clients (_set_volume_clients cfg
        (_set_identity_clients cfg (_set_compute_clients cfg
          (ServiceClients.init credentials
            (_prepare_configuration cfg modules).1)))))))).clients := h
  rcases mem_setFinalClients h with h | hx
  swap
  · refine ⟨Or.inl ?_, fun _ => (by decide :
      ∀ m ∈ finalAttrNames, m ∉ imageSpecs.map Prod.fst) _ hx.1⟩
    rw [hx.2]
    simp
  rcases mem_set_network_clients h with h | hx
  swap
  · refine ⟨Or.inl ?_, fun _ => (by decide :
      ∀ m ∈ networkSpecs.map Prod.fst, m ∉ imageSpecs.map Prod.fst) _ hx.1⟩
    rw [hx.2]
    simp
  by_cases hg : cfg.glance = true
  case neg =>
    rw [set_image_clients_glance_false cfg _ (by simpa using hg)] at h
    rcases mem_set_object_storage_clients h with h | hx
    swap
    · refine ⟨Or.inl ?_, fun _ => (by decide :
        ∀ m ∈ objectStorageSpecs.map Prod.fst, m ∉ imageSpecs.map Prod.fst) _ hx.1⟩
      rw [hx.2]
      simp
    rcases mem_set_volume_clients h with h | hx
    swap
    · refine ⟨Or.inl ?_, fun _ => (by decide :
        ∀ m ∈ volumeAttrNames, m ∉ imageSpecs.map Prod.fst) _ hx.1⟩
      rw [hx.2]
      simp
    rcases mem_set_identity_clients h with h | hx | hx | hx
    · rcases mem_set_compute_clients h with h | hx
      · rw [ServiceClients.init_clients] at h
        simp at h
      · refine ⟨Or.inl ?_, fun _ => (by decide :
          ∀ m ∈ computeAttrNames, m ∉ imageSpecs.map Prod.fst) _ hx.1⟩
        rw [hx.2]
    · refine ⟨Or.inl ?_, fun _ => (by decide :
        ∀ m ∈ identityCatalogAttrNames, m ∉ imageSpecs.map Prod.fst) _ hx.1⟩
      rw [hx.2]
      simp
    · exact ⟨Or.inr (Or.inl hx), fun _ => by rw [hx]; decide⟩
    · exact ⟨Or.inr (Or.inr hx), fun _ => by rw [hx]; decide⟩
  case pos =>
    rcases mem_set_image_clients h with h | hx
    swap
    · exact ⟨Or.inl (by rw [hx.2]; simp), fun hgf => by rw [hgf] at hg; cases hg⟩
    rcases mem_set_object_storage_clients h with h | hx
    swap
    · refine ⟨Or.inl ?_, fun _ => (by decide :
        ∀ m ∈ objectStorageSpecs.map Prod.fst, m ∉ imageSpecs.map Prod.fst) _ hx.1⟩
      rw [hx.2]
      simp
    rcases mem_set_volume_clients h with h | hx
    swap
    · refine ⟨Or.inl ?_, fun _ => (by decide :
        ∀ m ∈ volumeAttrNames, m ∉ imageSpecs.map Prod.fst) _ hx.1⟩
      rw [hx.2]
      simp
    rcases mem_set_identity_clients h with h | hx | hx | hx
    · rcases mem_set_compute_clients h with h | hx
      · rw [ServiceClients.init_clients] at h
        simp at h
      · refine ⟨Or.inl ?_, fun _ => (by decide :
          ∀ m ∈ computeAttrNames, m ∉ imageSpecs.map Prod.fst) _ hx.1⟩
        rw [hx.2]
    · refine ⟨Or.inl ?_, fun _ => (by decide :
        ∀ m ∈ identityCatalogAttrNames, m ∉ imageSpecs.map Prod.fst) _ hx.1⟩
      rw [hx.2]
      simp
    · exact ⟨Or.inr (Or.inl hx), fun _ => by rw [hx]; decide⟩
    · exact ⟨Or.inr (Or.inr hx), fun _ => by rw [hx]; decide⟩

theorem ServiceClients.init_parameters_isSome (c : Credentials)
    (P : AList Params) (k : String)
    (h : (alistGet P k).isSome = true) :
    (alistGet (ServiceClients.init (some c) P).parameters k).isSome = true := by
  obtain ⟨p, hp⟩ := Option.isSome_iff_exists.mp h
  obtain ⟨r, hr, _, _⟩ := (ServiceClients.init_spec c P).2.2 k p hp
  simp [hr]

/-- With the core service parameters resolvable and the identity token
preconditions satisfied, Manager construction reaches the image step with no
pending exception. -/
theorem manager_err_chain (cfg : Config) (modules : List String) (c : Credentials)
    (hc : (alistGet (_prepare_configuration cfg modules).1 "compute").isSome = true)
    (hv : (alistGet (_prepare_configuration cfg modules).1 "volume").isSome = true)
    (hid : (alistGet (_prepare_configuration cfg modules).1 "identity").isSome = true)
    (hos : (alistGet (_prepare_configuration cfg modules).1 "object-storage").isSome = true)
    (h2 : cfg.api_v2 = true → (cfg.uri).isSome = true)
    (h3 : cfg.api_v3 = true → (cfg.uri_v3).isSome = true) :
    (_set_object_storage_clients (_set_volume_clients cfg (_set_identity_clients cfg
      (_set_compute_clients cfg (ServiceClients.init (some c)
        (_prepare_configuration cfg modules).1))))).err = none := by
  have hc0 := ServiceClients.init_parameters_isSome c _ "compute" hc
  have hv0 := ServiceClients.init_parameters_isSome c _ "volume" hv
  have hid0 := ServiceClients.init_parameters_isSome c _ "identity" hid
  have hos0 := ServiceClients.init_parameters_isSome c _ "object-storage" hos
  rw [set_object_storage_clients_err_ok2 (by simpa using hos0),
      set_volume_clients_err_ok2 cfg (by simpa using hv0),
      set_identity_clients_err_ok cfg (by simpa using hid0) h2 h3,
      set_compute_clients_err_ok cfg (by simpa using hc0) (by simpa using hv0)]
  exact (ServiceClients.init_spec c _).1

/-- C1: `get_auth_provider_class` returns the AuthProvider variant and
identity URL matching the credential discriminant: for an instance of
`KeystoneV3Credentials` it returns the v3 provider class together with
`CONF.identity.uri_v3`; for every other credentials value it returns the v2
provider class together with `CONF.identity.uri`. -/
theorem C1_get_auth_provider_class_dichotomy (cfg : Config)
    (credentials : Option Credentials) :
    (credentials = some .keystoneV3 →
      get_auth_provider_class cfg credentials =
        (.keystoneV3AuthProvider, cfg.uri_v3)) ∧
    (credentials ≠ some .keystoneV3 →
      get_auth_provider_class cfg credentials =
        (.keystoneV2AuthProvider, cfg.uri)) := by
  constructor
  · intro h
    simp [get_auth_provider_class, h]
  · intro h
    simp [get_auth_provider_class, h]

theorem C1_witness :
    get_auth_provider_class cfgW (some .keystoneV3) =
      (.keystoneV3AuthProvider, cfgW.uri_v3) ∧
    get_auth_provider_class cfgW (some .keystoneV2) =
      (.keystoneV2AuthProvider, cfgW.uri) :=
  ⟨(C1_get_auth_provider_class_dichotomy cfgW (some .keystoneV3)).1 rfl,
   (C1_get_auth_provider_class_dichotomy cfgW (some .keystoneV2)).2 (by decide)⟩

/-- C9: `get_auth_provider_class` is total and never raises: any argument that
is not an instance of `KeystoneV3Credentials` — including `None` and objects
of unrelated type — falls through to the v2 branch and yields the v2 provider
class together with `CONF.identity.uri`. -/
theorem C9_get_auth_provider_class_total (cfg : Config)
    (credentials : Option Credentials)
    (h : credentials ≠ some .keystoneV3) :
    get_auth_provider_class cfg credentials =
      (.keystoneV2AuthProvider, cfg.uri) := by
  simp [get_auth_provider_class, h]

theorem C9_witness :
    get_auth_provider_class cfgW none = (.keystoneV2AuthProvider, cfgW.uri) ∧
    get_auth_provider_class cfgW (some .other) =
      (.keystoneV2AuthProvider, cfgW.uri) :=
  ⟨C9_get_auth_provider_class_total cfgW none (by decide),
   C9_get_auth_provider_class_total cfgW (some .other) (by decide)⟩

/-- C6: `get_auth_provider(credentials, pre_auth=True)` calls `set_auth` on
the constructed provider before returning it; with `pre_auth=False` the
provider is returned without `set_auth` having been called; with `credentials`
None it raises InvalidCredentials instead of returning a provider. -/
theorem C6_get_auth_provider_pre_auth (cfg : Config) (c : Credentials)
    (scope : String) (pre_auth : Bool) :
    (∃ p, get_auth_provider cfg (some c) true scope = .ok p ∧
      p.authCalled = true) ∧
    (∃ p, get_auth_provider cfg (some c) false scope = .ok p ∧
      p.authCalled = false) ∧
    get_auth_provider cfg none pre_auth scope =
      .error (.invalidCredentials "Credentials must be specified") :=
  ⟨⟨_, rfl, rfl⟩, ⟨_, rfl, rfl⟩, rfl⟩

/-- C5: constructing a Manager with `None` credentials raises an
InvalidCredentials-class error, and no client attribute is assigned. -/
theorem C5_null_credentials (cfg : Config) (modules : List String)
    (service : Option String) :
    (Manager.init cfg modules none service).err =
      some (.invalidCredentials "Credentials must be specified") ∧
    (Manager.init cfg modules none service).clients = [] :=
  ⟨rfl, rfl⟩

/-- C4 (amended): every service client a Manager constructs with an
auth-provider argument references the Manager's single shared auth provider;
the only exceptions are the identity token clients `token_client` and
`token_v3_client`, which are constructed from the configured identity URIs and
carry no auth-provider reference at all. -/
theorem C4_amended_shared_auth_provider (cfg : Config) (modules : List String)
    (credentials : Option Credentials) (service : Option String) :
    ∀ kv ∈ (Manager.init cfg modules credentials service).clients,
      kv.2.auth =
          .provider (Manager.init cfg modules credentials service).authProvider ∨
        kv.1 = "token_client" ∨ kv.1 = "token_v3_client" :=
  fun kv h => (goodKV_Manager_init cfg modules credentials service kv h).1

theorem C4_witness :
    ClientAuth.provider 0 =
        ClientAuth.provider
          (Manager.init cfgW modulesW (some .keystoneV2) none).authProvider ∨
      ("agents_client" : String) = "token_client" ∨
      ("agents_client" : String) = "token_v3_client" :=
  C4_amended_shared_auth_provider cfgW modulesW (some .keystoneV2) none
    ("agents_client",
      { auth := .provider 0, cls := "compute.AgentsClient",
        params := [("region", PVal.str "R1")], extra := [] })
    (by decide)

/-- C4 counterexample: with identity v2 enabled and `identity.uri` set, the
constructed Manager assigns `token_client` a client built from the raw
identity URI, carrying no reference to the shared AuthProvider — so it is not
the case that every service-client attribute references the Manager's auth
provider. -/
theorem C4_counterexample :
    ("token_client",
      ({ auth := .url (some "http://u2"), cls := "identity.v2.TokenClient",
         params := [], extra := [] } : Client)) ∈
        (Manager.init cfgW modulesW (some .keystoneV2) none).clients ∧
    ClientAuth.url (some "http://u2") ≠
      ClientAuth.provider
        (Manager.init cfgW modulesW (some .keystoneV2) none).authProvider :=
  ⟨by decide, by decide⟩

/-- C3: when the image service (glance) is flagged unavailable, Manager
construction assigns none of the image-family attributes; when it is flagged
available (and the configuration is otherwise resolvable so that construction
reaches the image step), it assigns all of them. -/
theorem C3_image_family_iff_glance (cfg : Config) (modules : List String)
    (c : Credentials) (service : Option String)
    (hc : (alistGet (_prepare_configuration cfg modules).1 "compute").isSome = true)
    (hv : (alistGet (_prepare_configuration cfg modules).1 "volume").isSome = true)
    (hid : (alistGet (_prepare_configuration cfg modules).1 "identity").isSome = true)
    (hos : (alistGet (_prepare_configuration cfg modules).1 "object-storage").isSome = true)
    (himg : (alistGet (_prepare_configuration cfg modules).1 "image").isSome = true)
    (h2 : cfg.api_v2 = true → (cfg.uri).isSome = true)
    (h3 : cfg.api_v3 = true → (cfg.uri_v3).isSome = true) :
    (cfg.glance = false → ∀ n ∈ imageSpecs.map Prod.fst,
      alistGet (Manager.init cfg modules (some c) service).clients n = none) ∧
    (cfg.glance = true → ∀ n ∈ imageSpecs.map Prod.fst,
      (alistGet (Manager.init cfg modules (some c) service).clients n).isSome
        = true) := by
  constructor
  · intro hg n hn
    apply alistGet_eq_none_of_forall
    intro kv hkv hne
    exact (goodKV_Manager_init cfg modules (some c) service kv hkv).2 hg
      (hne ▸ hn)
  · intro hg n hn
    obtain ⟨p, hmem, hfst⟩ := List.mem_map.mp hn
    obtain ⟨n', cls⟩ := p
    subst hfst
    have herr4 := manager_err_chain cfg modules c hc hv hid hos h2 h3
    obtain ⟨pimg, hpimg⟩ := Option.isSome_iff_exists.mp himg
    obtain ⟨rimg, hrimg, _, _⟩ :=
      (ServiceClients.init_spec c (_prepare_configuration cfg modules).1).2.2
        "image" pimg hpimg
    have hrimg4 : alistGet (_set_object_storage_clients (_set_volume_clients cfg
        (_set_identity_clients cfg (_set_compute_clients cfg
          (ServiceClients.init (some c)
            (_prepare_configuration cfg modules).1))))).parameters "image"
        = some rimg := by simpa using hrimg
    have him := set_image_clients_set cfg herr4 hg hrimg4 hmem
    have hnet : ("image_client" : String) = "image_client" := rfl
    have hin : (n', cls).1 ∈ imageSpecs.map Prod.fst :=
      List.mem_map_of_mem Prod.fst hmem
    show (alistGet (setFinalClients cfg service (_set_network_clients
      (_set_image_clients cfg (_set_object_storage_clients (_set_volume_clients cfg
        (_set_identity_clients cfg (_set_compute_clients cfg
          (ServiceClients.init (some c)
            (_prepare_configuration cfg modules).1)))))))).clients
      (n', cls).1).isSome = true
    rw [setFinalClients_get_preserve cfg service _
        ((by decide : ∀ m ∈ imageSpecs.map Prod.fst, m ∉ finalAttrNames) _ hin),
      set_network_clients_get_preserve _
        ((by decide : ∀ m ∈ imageSpecs.map Prod.fst,
          m ∉ networkSpecs.map Prod.fst) _ hin),
      him]
    rfl

theorem C3_witness :
    (alistGet (Manager.init cfgW modulesW (some .keystoneV2) none).clients
      "image_client").isSome = true :=
  (C3_image_family_iff_glance cfgW modulesW .keystoneV2 none (by decide)
    (by decide) (by decide) (by decide) (by decide) (fun _ => rfl)
    (fun _ => rfl)).2 rfl "image_client" (by decide)

theorem identityCatalog_get_preserve (cfg : Config) (s : MState) (r : Nat)
    {n : String}
    (hn1 : n ∉ identityV2AdminSpecs.map Prod.fst)
    (hn2 : n ∉ identityV2PublicSpecs.map Prod.fst)
    (hn3 : n ∉ identityV3Specs.map Prod.fst) :
    alistGet (identityCatalogClients cfg s r).clients n = alistGet s.clients n := by
  unfold identityCatalogClients
  simp only [addClients_get_notMem _ _ _ hn3, addClients_get_notMem _ _ _ hn2,
    addClients_get_notMem _ _ _ hn1]

/-- C2 (amended): during `_set_identity_clients`, (a) if the identity v2 API
is enabled but `identity.uri` is unset, an InvalidConfiguration-class error is
raised and `token_client` is not assigned; (b) if the v3 API is enabled but
`identity.uri_v3` is unset, an InvalidConfiguration-class error is raised and
`token_v3_client` is not assigned; (c) when v2 is enabled and its URI set,
`token_client` is assigned; (d) when v3 is enabled and its URI set,
`token_v3_client` is assigned provided the v2 check passes first (v2 disabled
or `identity.uri` set) — without that proviso the v2 check raises before the
v3 client is ever constructed. -/
theorem C2_amended_token_client_errors (cfg : Config) (s : MState) (r : Nat)
    (herr : s.err = none)
    (hr : alistGet s.parameters "identity" = some r)
    (htc : alistGet s.clients "token_client" = none)
    (htc3 : alistGet s.clients "token_v3_client" = none) :
    (cfg.api_v2 = true → cfg.uri = none →
      (_set_identity_clients cfg s).err = some (.invalidConfiguration
          "Identity v2 API enabled, but no identity.uri set") ∧
        alistGet (_set_identity_clients cfg s).clients "token_client" = none) ∧
    (cfg.api_v3 = true → cfg.uri_v3 = none →
      (∃ m, (_set_identity_clients cfg s).err =
          some (.invalidConfiguration m)) ∧
        alistGet (_set_identity_clients cfg s).clients "token_v3_client"
          = none) ∧
    (∀ u, cfg.api_v2 = true → cfg.uri = some u →
      alistGet (_set_identity_clients cfg s).clients "token_client" =
        some { auth := .url (some u), cls := "identity.v2.TokenClient",
               params := cfg.default_params, extra := [] }) ∧
    (∀ u3, cfg.api_v3 = true → cfg.uri_v3 = some u3 →
      (cfg.api_v2 = true → (cfg.uri).isSome = true) →
      alistGet (_set_identity_clients cfg s).clients "token_v3_client" =
        some { auth := .url (some u3), cls := "identity.v3.V3TokenClient",
               params := cfg.default_params, extra := [] }) := by
  have hEq : _set_identity_clients cfg s =
      setTokenClients cfg (identityCatalogClients cfg s r) := by
    unfold _set_identity_clients
    rw [herr, hr]
    rfl
  have hsctc : alistGet (identityCatalogClients cfg s r).clients "token_client"
      = none :=
    (identityCatalog_get_preserve cfg s r (by decide) (by decide)
      (by decide)).trans htc
  have hsctc3 : alistGet (identityCatalogClients cfg s r).clients
      "token_v3_client" = none :=
    (identityCatalog_get_preserve cfg s r (by decide) (by decide)
      (by decide)).trans htc3
  rw [hEq]
  generalize identityCatalogClients cfg s r = sc at hsctc hsctc3 ⊢
  refine ⟨?_, ?_, ?_, ?_⟩
  · intro hv2 hu
    rw [setTokenClients_v2_missing cfg _ hv2 hu]
    exact ⟨rfl, hsctc⟩
  · intro hv3 hu3
    cases hv2 : cfg.api_v2 with
    | false =>
        rw [setTokenClients_v2_disabled cfg _ hv2,
          setTokenV3Client_v3_missing cfg _ hv3 hu3]
        exact ⟨⟨_, rfl⟩, hsctc3⟩
    | true =>
        cases hu : cfg.uri with
        | none =>
            rw [setTokenClients_v2_missing cfg _ hv2 hu]
            exact ⟨⟨_, rfl⟩, hsctc3⟩
        | some u =>
            rw [setTokenClients_v2_set cfg _ hv2 hu,
              setTokenV3Client_v3_missing cfg _ hv3 hu3]
            refine ⟨⟨_, rfl⟩, ?_⟩
            simp only [setClient_clients, alistGet_set]
            rw [if_neg (by decide)]
            exact hsctc3
  · intro u hv2 hu
    rw [setTokenClients_v2_set cfg _ hv2 hu,
      setTokenV3Client_get_preserve cfg _ (by decide)]
    simp
  · intro u3 hv3 hu3 hpass
    cases hv2 : cfg.api_v2 with
    | false =>
        rw [setTokenClients_v2_disabled cfg _ hv2,
          setTokenV3Client_v3_set cfg _ hv3 hu3]
        simp
    | true =>
        obtain ⟨u, hu⟩ := Option.isSome_iff_exists.mp (hpass hv2)
        rw [setTokenClients_v2_set cfg _ hv2 hu,
          setTokenV3Client_v3_set cfg _ hv3 hu3]
        simp

/-- C2 counterexample: with identity v3 enabled and `identity.uri_v3` set but
identity v2 enabled with `identity.uri` unset, `_set_identity_clients` raises
at the v2 check and `token_v3_client` is never assigned — refuting the claim
that whenever an enabled version's URI is set the corresponding token client
attribute is set. -/
theorem C2_counterexample :
    cfgC2.api_v3 = true ∧ cfgC2.uri_v3 = some "http://u3" ∧
    alistGet (_set_identity_clients cfgC2 sC2).clients "token_v3_client"
      = none ∧
    (_set_identity_clients cfgC2 sC2).err = some (.invalidConfiguration
      "Identity v2 API enabled, but no identity.uri set") := by
  refine ⟨rfl, rfl, ?_, ?_⟩ <;> decide

theorem C2_witness :
    alistGet (_set_identity_clients cfgW sC2).clients "token_client" =
      some { auth := .url (some "http://u2"), cls := "identity.v2.TokenClient",
             params := cfgW.default_params, extra := [] } :=
  (C2_amended_token_client_errors cfgW sC2 0 rfl rfl rfl rfl).2.2.1
    "http://u2" rfl rfl

/-! ### `_prepare_configuration` invariants -/

theorem countStr_append (l₁ l₂ : List String) (k : String) :
    countStr (l₁ ++ l₂) k = countStr l₁ k + countStr l₂ k := by
  induction l₁ with
  | nil => simp [countStr]
  | cons x t ih => simp [countStr, ih, Nat.add_assoc]

theorem prepInv_step (cfg : Config) (ms : List String)
    (acc : AList Params × List String) (x : String)
    (hx : unversioned x ∈ ms) (h : PrepInv cfg ms acc) :
    PrepInv cfg ms (prepareConfigStep cfg acc x) := by
  obtain ⟨h1, h2, h3, h4⟩ := h
  cases hin : (alistGet acc.1 (unversioned x)).isSome with
  | true =>
      have hstep : prepareConfigStep cfg acc x = acc := by
        unfold prepareConfigStep
        simp [hin]
      rw [hstep]
      exact ⟨h1, h2, h3, h4⟩
  | false =>
      cases hsvc : cfg.svcConfig (unversioned x) with
      | some p =>
          have hstep : prepareConfigStep cfg acc x =
              (alistSet acc.1 (unversioned x) p, acc.2 ++ [unversioned x]) := by
            unfold prepareConfigStep
            simp [hin, hsvc]
          rw [hstep]
          refine ⟨?_, ?_, ?_, ?_⟩
          · intro k q hkq
            rw [alistGet_set] at hkq
            split_ifs at hkq with he
            · subst he
              rw [hsvc]
              exact hkq
            · exact h1 k q hkq
          · intro k hk
            rw [alistGet_set]
            split_ifs with he
            · subst he
              rw [hk] at hsvc
              cases hsvc
            · exact h2 k hk
          · intro k hks
            rw [countStr_append, alistGet_set]
            by_cases he : k = unversioned x
            · have h0 : countStr acc.2 k = 0 := by
                rcases h3 k hks with ⟨hle, hiff⟩
                have : ¬ countStr acc.2 k = 1 := by
                  rw [hiff, he, hin]
                  simp
                omega
              rw [h0, if_pos he]
              subst he
              simp [countStr]
            · rcases h3 k hks with ⟨hle, hiff⟩
              have hone : countStr [unversioned x] k = 0 := by
                simp [countStr]
                exact fun hh => he hh.symm
              rw [hone, if_neg he]
              exact ⟨by omega, by rw [Nat.add_zero]; exact hiff⟩
          · intro k hk
            rcases List.mem_append.mp hk with hk | hk
            · exact h4 k hk
            · rw [List.mem_singleton.mp hk]
              exact hx
      | none =>
          have hstep : prepareConfigStep cfg acc x =
              (acc.1, acc.2 ++ [unversioned x]) := by
            unfold prepareConfigStep
            simp [hin, hsvc]
          rw [hstep]
          refine ⟨h1, h2, ?_, ?_⟩
          · intro k hks
            have he : ¬ k = unversioned x := by
              intro he
              rw [he, hsvc] at hks
              cases hks
            rw [countStr_append]
            have hone : countStr [unversioned x] k = 0 := by
              simp [countStr]
              exact fun hh => he hh.symm
            rw [hone, Nat.add_zero]
            exact h3 k hks
          · intro k hk
            rcases List.mem_append.mp hk with hk | hk
            · exact h4 k hk
            · rw [List.mem_singleton.mp hk]
              exact hx

theorem prepInv_foldl (cfg : Config) (ms : List String) :
    ∀ (l : List String), (∀ x ∈ l, unversioned x ∈ ms) →
      ∀ (acc : AList Params × List String), PrepInv cfg ms acc →
        PrepInv cfg ms (l.foldl (prepareConfigStep cfg) acc) := by
  intro l
  induction l with
  | nil => intro _ acc h; exact h
  | cons x t ih =>
      intro hl acc h
      exact ih (fun y hy => hl y (List.mem_cons_of_mem x hy))
        (prepareConfigStep cfg acc x)
        (prepInv_step cfg ms acc x (hl x (List.mem_cons_self x t)) h)

theorem prepInv_init (cfg : Config) (ms : List String) :
    PrepInv cfg ms ([], []) := by
  refine ⟨?_, ?_, ?_, ?_⟩ <;> simp [alistGet, countStr]

/-- C7 (amended): `_prepare_configuration` stores, keyed by unversioned
service name, exactly the successfully fetched configurations; a service whose
fetch raises `UnknownServiceClient` is omitted (after a logged warning) and the
method still returns normally; a service whose configuration is fetchable is
fetched at most once (the successful result is cached); every fetch is keyed
by the unversioned name of some module.  (A service whose fetch raises is not
cached, so it may be re-fetched for later modules sharing the same unversioned
name — the unqualified "at most once" of the original claim fails there.) -/
theorem C7_amended_prepare_configuration (cfg : Config) (modules : List String) :
    (∀ k p, alistGet (_prepare_configuration cfg modules).1 k = some p →
      cfg.svcConfig k = some p) ∧
    (∀ k, cfg.svcConfig k = none →
      alistGet (_prepare_configuration cfg modules).1 k = none) ∧
    (∀ k, (cfg.svcConfig k).isSome = true →
      countStr (_prepare_configuration cfg modules).2 k ≤ 1) ∧
    (∀ k ∈ (_prepare_configuration cfg modules).2,
      k ∈ modules.map unversioned) := by
  have h := prepInv_foldl cfg (modules.map unversioned) modules
    (fun x hx => List.mem_map_of_mem unversioned hx) ([], [])
    (prepInv_init cfg (modules.map unversioned))
  exact ⟨h.1, h.2.1, fun k hk => (h.2.2.1 k hk).1, h.2.2.2⟩

/-- C7 counterexample: with two volume modules and `service_client_config`
raising `UnknownServiceClient` for every service, the configuration of the
service "volume" is fetched twice — once per module — refuting the claim that
each service's parameter mapping is fetched at most once. -/
theorem C7_counterexample :
    (_prepare_configuration cfgC7 ["volume.v1", "volume.v2"]).2 =
      ["volume", "volume"] ∧
    countStr (_prepare_configuration cfgC7 ["volume.v1", "volume.v2"]).2
      "volume" = 2 := by
  refine ⟨?_, ?_⟩ <;> decide

theorem C7_witness :
    countStr (_prepare_configuration cfgW modulesW).2 "volume" ≤ 1 :=
  (C7_amended_prepare_configuration cfgW modulesW).2.2.1 "volume" (by decide)

/-! ### Volume-override loop characterization -/

@[simp] theorem length_dictAssign (h : Heap) (r : Nat) (k : String) (v : PVal) :
    (dictAssign h r k v).length = h.length := length_heapWrite _ _ _

theorem length_volumeOverrideStep (rVol rv : Nat) (h : Heap) (k : String) :
    (volumeOverrideStep rVol rv h k).length = h.length := by
  unfold volumeOverrideStep
  cases m : alistGet (heapRead h rv) k with
  | none => rfl
  | some v => by_cases ht : v.truthy <;> simp [ht]

theorem heapRead_volumeOverrideStep_rv (rVol rv : Nat) (h : Heap) (k : String)
    (hne : rv ≠ rVol) :
    heapRead (volumeOverrideStep rVol rv h k) rv = heapRead h rv := by
  unfold volumeOverrideStep
  cases m : alistGet (heapRead h rv) k with
  | none => rfl
  | some v =>
      by_cases ht : v.truthy
      · simp only [ht, if_true, dictAssign]
        exact heapRead_heapWrite_ne _ hne
      · simp [ht]

theorem heapRead_volumeOverrideStep_rVol (rVol rv : Nat) (h : Heap) (k : String)
    (hlt : rVol < h.length) :
    heapRead (volumeOverrideStep rVol rv h k) rVol =
      pyOverrideStep (heapRead h rv) (heapRead h rVol) k := by
  unfold volumeOverrideStep pyOverrideStep
  cases m : alistGet (heapRead h rv) k with
  | none => rfl
  | some v =>
      by_cases ht : v.truthy
      · simp only [ht, if_true, dictAssign]
        exact heapRead_heapWrite_self _ hlt
      · simp [ht]

theorem volumeOverrideFold_read (keys : List String) :
    ∀ (h : Heap) (rVol rv : Nat), rv ≠ rVol → rVol < h.length →
      heapRead (keys.foldl (volumeOverrideStep rVol rv) h) rVol =
        pyOverride (heapRead h rv) keys (heapRead h rVol) := by
  induction keys with
  | nil => intro h rVol rv _ _; rfl
  | cons k t ih =>
      intro h rVol rv hne hlt
      have hlen := length_volumeOverrideStep rVol rv h k
      rw [show (k :: t).foldl (volumeOverrideStep rVol rv) h =
        t.foldl (volumeOverrideStep rVol rv) (volumeOverrideStep rVol rv h k)
        from rfl]
      rw [ih _ rVol rv hne (by rw [hlen]; exact hlt)]
      rw [heapRead_volumeOverrideStep_rv rVol rv h k hne,
        heapRead_volumeOverrideStep_rVol rVol rv h k hlt]
      rfl

theorem pyOverrideStep_get_self (pvol d : Params) (k : String) :
    alistGet (pyOverrideStep pvol d k) k =
      match alistGet pvol k with
      | some v => if v.truthy then some v else alistGet d k
      | none => alistGet d k := by
  unfold pyOverrideStep
  cases m : alistGet pvol k with
  | none => rfl
  | some v =>
      by_cases ht : v.truthy
      · simp [ht, alistGet_set]
      · simp [ht]

theorem pyOverrideStep_get_ne (pvol d : Params) (k : String) {k' : String}
    (hk : k' ≠ k) :
    alistGet (pyOverrideStep pvol d k) k' = alistGet d k' := by
  unfold pyOverrideStep
  cases m : alistGet pvol k with
  | none => rfl
  | some v =>
      by_cases ht : v.truthy
      · simp [ht, alistGet_set, hk]
      · simp [ht]

/-- The value the three volume-proxy compute clients receive: the deep copy of
the compute parameters with the volume override loop applied. -/
theorem computeProxyPart_get_proxy (s : MState) (params : Params) {rv : Nat}
    (hv : alistGet s.parameters "volume" = some rv) (hrv : rv < s.heap.length)
    {n cls : String} (hm : (n, cls) ∈ computeProxySpecs) :
    alistGet (computeProxyPart s params).clients n =
      some { auth := .provider s.authProvider, cls := cls,
             params := pyOverride (heapRead s.heap rv)
               ["build_interval", "build_timeout"] params, extra := [] } := by
  unfold computeProxyPart
  simp only [heapAlloc, hv]
  rw [addClients_get_mem _ _ _ (by decide) hm]
  rw [volumeOverrideFold_read _ _ _ _ (Nat.ne_of_lt hrv) (by simp),
    heapRead_append_lt _ hrv, heapRead_append_self]

theorem computeProxyPart_get_preserve (s : MState) (params : Params)
    {n : String} (hn : n ∉ computeProxySpecs.map Prod.fst) :
    alistGet (computeProxyPart s params).clients n = alistGet s.clients n := by
  unfold computeProxyPart
  cases hvol : alistGet s.parameters "volume" with
  | none => simp [hvol]
  | some rv =>
      simp only [hvol]
      rw [addClients_get_notMem _ _ _ hn]

/-- C8: the volume-proxy compute clients (`volumes_extensions_client`,
`compute_versions_client`, `snapshots_extensions_client`) are constructed
from a clone of the compute parameter mapping in which `build_interval` and
`build_timeout` are overridden with the volume values exactly when present
and truthy in the volume configuration; every other compute client is
constructed from the unmodified compute parameter mapping. -/
theorem C8_volume_proxy_params (cfg : Config) (s : MState) (rc rv : Nat)
    (herr : s.err = none)
    (hc : alistGet s.parameters "compute" = some rc)
    (hv : alistGet s.parameters "volume" = some rv)
    (hrv : rv < s.heap.length) :
    ∃ pv,
      (∀ p ∈ computeProxySpecs,
        alistGet (_set_compute_clients cfg s).clients p.1 =
          some { auth := .provider s.authProvider, cls := p.2, params := pv,
                 extra := [] }) ∧
      (∀ k, k = "build_interval" ∨ k = "build_timeout" →
        alistGet pv k =
          match alistGet (heapRead s.heap rv) k with
          | some v => if v.truthy then some v
                      else alistGet (heapRead s.heap rc) k
          | none => alistGet (heapRead s.heap rc) k) ∧
      (∀ k, k ≠ "build_interval" → k ≠ "build_timeout" →
        alistGet pv k = alistGet (heapRead s.heap rc) k) ∧
      (∀ p ∈ computeSpecs1,
        alistGet (_set_compute_clients cfg s).clients p.1 =
          some { auth := .provider s.authProvider, cls := p.2,
                 params := heapRead s.heap rc, extra := [] }) ∧
      (∀ p ∈ computeSpecs2,
        alistGet (_set_compute_clients cfg s).clients p.1 =
          some { auth := .provider s.authProvider, cls := p.2,
                 params := heapRead s.heap rc, extra := [] }) ∧
      alistGet (_set_compute_clients cfg s).clients "servers_client" =
        some { auth := .provider s.authProvider, cls := "compute.ServersClient",
               params := heapRead s.heap rc,
               extra := [("enable_instance_password",
                 .bool cfg.enable_instance_password)] } := by
  have hEq : _set_compute_clients cfg s =
      computeProxyPart (addClients (addC (addClients s (heapRead s.heap rc)
        computeSpecs1) "servers_client" "compute.ServersClient"
        (heapRead s.heap rc)
        [("enable_instance_password", .bool cfg.enable_instance_password)])
        (heapRead s.heap rc) computeSpecs2) (heapRead s.heap rc) := by
    unfold _set_compute_clients
    rw [herr, hc]
    rfl
  refine ⟨pyOverride (heapRead s.heap rv) ["build_interval", "build_timeout"]
    (heapRead s.heap rc), ?_, ?_, ?_, ?_, ?_, ?_⟩
  · intro p hp
    rw [hEq, computeProxyPart_get_proxy _ _ (by simpa using hv)
      (by simpa using hrv) hp]
    simp
  · intro k hk
    rcases hk with hk | hk
    · subst hk
      show alistGet (pyOverrideStep (heapRead s.heap rv)
        (pyOverrideStep (heapRead s.heap rv) (heapRead s.heap rc)
          "build_interval") "build_timeout") "build_interval" = _
      rw [pyOverrideStep_get_ne _ _ _ (by decide),
        pyOverrideStep_get_self]
    · subst hk
      show alistGet (pyOverrideStep (heapRead s.heap rv)
        (pyOverrideStep (heapRead s.heap rv) (heapRead s.heap rc)
          "build_interval") "build_timeout") "build_timeout" = _
      rw [pyOverrideStep_get_self,
        pyOverrideStep_get_ne _ _ _ (by decide)]
  · intro k hk1 hk2
    show alistGet (pyOverrideStep (heapRead s.heap rv)
      (pyOverrideStep (heapRead s.heap rv) (heapRead s.heap rc)
        "build_interval") "build_timeout") k = _
    rw [pyOverrideStep_get_ne _ _ _ hk2, pyOverrideStep_get_ne _ _ _ hk1]
  · intro p hp
    rw [hEq, computeProxyPart_get_preserve _ _
      ((by decide : ∀ q ∈ computeSpecs1,
        q.1 ∉ computeProxySpecs.map Prod.fst) p hp)]
    rw [addClients_get_notMem _ _ _
      ((by decide : ∀ q ∈ computeSpecs1,
        q.1 ∉ computeSpecs2.map Prod.fst) p hp)]
    simp only [addC_clients, alistGet_set]
    rw [if_neg ((by decide : ∀ q ∈ computeSpecs1,
      ¬ q.1 = "servers_client") p hp)]
    rw [addClients_get_mem _ _ _ (by decide) hp]
  · intro p hp
    rw [hEq, computeProxyPart_get_preserve _ _
      ((by decide : ∀ q ∈ computeSpecs2,
        q.1 ∉ computeProxySpecs.map Prod.fst) p hp)]
    rw [addClients_get_mem _ _ _ (by decide) hp]
    simp
  · rw [hEq, computeProxyPart_get_preserve _ _ (by decide)]
    rw [addClients_get_notMem _ _ _ (by decide)]
    simp

theorem C8_witness :
    ∃ pv,
      (∀ p ∈ computeProxySpecs,
        alistGet (_set_compute_clients cfgW sC8).clients p.1 =
          some { auth := .provider sC8.authProvider, cls := p.2, params := pv,
                 extra := [] }) ∧
      alistGet pv "build_interval" = some (PVal.int 5) ∧
      alistGet pv "build_timeout" = some (PVal.int 300) := by
  obtain ⟨pv, h1, h2, h3, _⟩ :=
    C8_volume_proxy_params cfgW sC8 0 1 rfl rfl rfl (by decide)
  refine ⟨pv, h1, ?_, ?_⟩
  · rw [h2 "build_interval" (Or.inl rfl)]
    decide
  · rw [h2 "build_timeout" (Or.inr rfl)]
    decide

/-! ### Copy/frame lemmas -/

theorem copyAssign_ext (h : Heap) (p : Params) (k : String) (v : PVal) :
    HeapExt h (dictAssign (h ++ [p]) h.length k v) :=
  (heapExt_append h [p]).dictAssign_ge (le_refl _) k v

theorem copyAssign_read (h : Heap) (p : Params) (k : String) (v : PVal) :
    heapRead (dictAssign (h ++ [p]) h.length k v) h.length = alistSet p k v := by
  unfold dictAssign
  rw [heapRead_append_self]
  exact heapRead_heapWrite_self _ (by simp)

theorem identityCatalog_heapExt (cfg : Config) (s : MState) (r : Nat) :
    HeapExt s.heap (identityCatalogClients cfg s r).heap := by
  unfold identityCatalogClients
  simp only [heapAlloc, addClients_heap, setClient_heap]
  exact ((copyAssign_ext _ _ _ _).trans (copyAssign_ext _ _ _ _)).trans
    (copyAssign_ext _ _ _ _)

theorem identityCatalog_groups (cfg : Config) (s : MState) (r : Nat) :
    (∀ p ∈ identityV2AdminSpecs,
      alistGet (identityCatalogClients cfg s r).clients p.1 =
        some { auth := .provider s.authProvider, cls := p.2,
               params := alistSet (heapRead s.heap r) "endpoint_type"
                 (.str cfg.v2_admin_endpoint_type), extra := [] }) ∧
    (∀ p ∈ identityV2PublicSpecs,
      alistGet (identityCatalogClients cfg s r).clients p.1 =
        some { auth := .provider s.authProvider, cls := p.2,
               params := alistSet (heapRead s.heap r) "endpoint_type"
                 (.str cfg.v2_public_endpoint_type), extra := [] }) ∧
    (∀ p ∈ identityV3Specs,
      alistGet (identityCatalogClients cfg s r).clients p.1 =
        some { auth := .provider s.authProvider, cls := p.2,
               params := alistSet (heapRead s.heap r) "endpoint_type"
                 (.str cfg.v3_endpoint_type), extra := [] }) := by
  unfold identityCatalogClients
  simp only [heapAlloc, addClients_heap, setClient_heap]
  rw [copyAssign_read, copyAssign_read, copyAssign_read]
  refine ⟨?_, ?_, ?_⟩
  · intro p hp
    rw [addClients_get_notMem _ _ _ ((by decide : ∀ q ∈ identityV2AdminSpecs,
        q.1 ∉ identityV3Specs.map Prod.fst) p hp),
      addClients_get_notMem _ _ _ ((by decide : ∀ q ∈ identityV2AdminSpecs,
        q.1 ∉ identityV2PublicSpecs.map Prod.fst) p hp),
      addClients_get_mem _ _ _ (by decide) hp]
  · intro p hp
    rw [addClients_get_notMem _ _ _ ((by decide : ∀ q ∈ identityV2PublicSpecs,
        q.1 ∉ identityV3Specs.map Prod.fst) p hp),
      addClients_get_mem _ _ _ (by decide) hp]
    simp
  · intro p hp
    rw [addClients_get_mem _ _ _ (by decide) hp]
    simp

theorem volumeOverrideFold_ext (base : Heap) (rVol rv : Nat)
    (hge : base.length ≤ rVol) :
    ∀ (keys : List String) (h : Heap), HeapExt base h →
      HeapExt base (keys.foldl (volumeOverrideStep rVol rv) h) := by
  intro keys
  induction keys with
  | nil => intro h e; exact e
  | cons k t ih =>
      intro h e
      apply ih
      unfold volumeOverrideStep
      cases m : alistGet (heapRead h rv) k with
      | none => exact e
      | some v =>
          by_cases ht : v.truthy
          · simp only [ht, if_true]
            exact e.dictAssign_ge hge k v
          · simp only [ht]
            simp only [Bool.false_eq_true, if_false]
            exact e

theorem computeProxyPart_heapExt (s : MState) (params : Params) :
    HeapExt s.heap (computeProxyPart s params).heap := by
  unfold computeProxyPart
  cases hvol : alistGet s.parameters "volume" with
  | none =>
      simp only [hvol, heapAlloc]
      exact heapExt_append _ _
  | some rv =>
      simp only [hvol, heapAlloc]
      exact volumeOverrideFold_ext s.heap s.heap.length rv (le_refl _) _ _
        (heapExt_append _ _)

/-- C10: the endpoint-type and timeout overrides operate only on copies of the
resolved parameter mappings.  After `_set_identity_clients`, the parameter map
and the stored identity dict are unchanged, while the three identity
sub-groups each receive their own copy with its own `endpoint_type`; after
`_set_compute_clients`, the parameter map and the stored compute dict are
likewise unchanged (the volume-timeout override operates on a deep copy). -/
theorem C10_overrides_on_copies (cfg : Config) (s : MState) (rid rc rv : Nat)
    (herr : s.err = none)
    (hrid : alistGet s.parameters "identity" = some rid)
    (hlid : rid < s.heap.length)
    (hc : alistGet s.parameters "compute" = some rc)
    (_hv : alistGet s.parameters "volume" = some rv)
    (hlc : rc < s.heap.length) :
    (_set_identity_clients cfg s).parameters = s.parameters ∧
    heapRead (_set_identity_clients cfg s).heap rid = heapRead s.heap rid ∧
    (∀ p ∈ identityV2AdminSpecs,
      alistGet (_set_identity_clients cfg s).clients p.1 =
        some { auth := .provider s.authProvider, cls := p.2,
               params := alistSet (heapRead s.heap rid) "endpoint_type"
                 (.str cfg.v2_admin_endpoint_type), extra := [] }) ∧
    (∀ p ∈ identityV2PublicSpecs,
      alistGet (_set_identity_clients cfg s).clients p.1 =
        some { auth := .provider s.authProvider, cls := p.2,
               params := alistSet (heapRead s.heap rid) "endpoint_type"
                 (.str cfg.v2_public_endpoint_type), extra := [] }) ∧
    (∀ p ∈ identityV3Specs,
      alistGet (_set_identity_clients cfg s).clients p.1 =
        some { auth := .provider s.authProvider, cls := p.2,
               params := alistSet (heapRead s.heap rid) "endpoint_type"
                 (.str cfg.v3_endpoint_type), extra := [] }) ∧
    (_set_compute_clients cfg s).parameters = s.parameters ∧
    heapRead (_set_compute_clients cfg s).heap rc = heapRead s.heap rc := by
  have hEqI : _set_identity_clients cfg s =
      setTokenClients cfg (identityCatalogClients cfg s rid) := by
    unfold _set_identity_clients
    rw [herr, hrid]
    rfl
  have hEqC : _set_compute_clients cfg s =
      computeProxyPart (addClients (addC (addClients s (heapRead s.heap rc)
        computeSpecs1) "servers_client" "compute.ServersClient"
        (heapRead s.heap rc)
        [("enable_instance_password", .bool cfg.enable_instance_password)])
        (heapRead s.heap rc) computeSpecs2) (heapRead s.heap rc) := by
    unfold _set_compute_clients
    rw [herr, hc]
    rfl
  refine ⟨by simp, ?_, ?_, ?_, ?_, by simp, ?_⟩
  · rw [hEqI, setTokenClients_heap]
    exact (identityCatalog_heapExt cfg s rid).2 rid hlid
  · intro p hp
    rw [hEqI, setTokenClients_get_preserve cfg _
      ((by decide : ∀ q ∈ identityV2AdminSpecs, ¬ q.1 = "token_client") p hp)
      ((by decide : ∀ q ∈ identityV2AdminSpecs,
        ¬ q.1 = "token_v3_client") p hp)]
    exact (identityCatalog_groups cfg s rid).1 p hp
  · intro p hp
    rw [hEqI, setTokenClients_get_preserve cfg _
      ((by decide : ∀ q ∈ identityV2PublicSpecs, ¬ q.1 = "token_client") p hp)
      ((by decide : ∀ q ∈ identityV2PublicSpecs,
        ¬ q.1 = "token_v3_client") p hp)]
    exact (identityCatalog_groups cfg s rid).2.1 p hp
  · intro p hp
    rw [hEqI, setTokenClients_get_preserve cfg _
      ((by decide : ∀ q ∈ identityV3Specs, ¬ q.1 = "token_client") p hp)
      ((by decide : ∀ q ∈ identityV3Specs,
        ¬ q.1 = "token_v3_client") p hp)]
    exact (identityCatalog_groups cfg s rid).2.2 p hp
  · rw [hEqC]
    have h2 := (computeProxyPart_heapExt (addClients (addC (addClients s
      (heapRead s.heap rc) computeSpecs1) "servers_client"
      "compute.ServersClient" (heapRead s.heap rc)
      [("enable_instance_password", .bool cfg.enable_instance_password)])
      (heapRead s.heap rc) computeSpecs2) (heapRead s.heap rc)).2 rc
      (by simpa using hlc)
    simpa using h2

theorem C10_witness :
    heapRead (_set_identity_clients cfgW sC10).heap 2 =
      heapRead sC10.heap 2 ∧
    heapRead (_set_compute_clients cfgW sC10).heap 0 =
      heapRead sC10.heap 0 ∧
    alistGet (_set_identity_clients cfgW sC10).clients "endpoints_client" =
      some { auth := .provider sC10.authProvider,
             cls := "identity.v2.EndpointsClient",
             params := alistSet (heapRead sC10.heap 2) "endpoint_type"
               (.str cfgW.v2_admin_endpoint_type), extra := [] } := by
  obtain ⟨_, h2, h3, _, _, _, h7⟩ :=
    C10_overrides_on_copies cfgW sC10 2 0 1 rfl rfl (by decide) rfl rfl
      (by decide)
  exact ⟨h2, h7, h3 ("endpoints_client", "identity.v2.EndpointsClient")
    (by decide)⟩

end TempestClients
